import Mathlib

/-!
# Barometer altitude estimation (`src/main/sensors/barometer.c`)

A shallow embedding of the barometer driver front-end: the calibration counter,
the three-sample median filter, the two-phase acquisition state machine, the
ground calibration cycle and the pressure-to-altitude conversion.

Conventions of the embedding.

* C file-scope and function-scope `static` variables become fields of an explicit
  state record; every C function becomes a function from the state before the call
  to the state after it (paired with the returned value, if any).
* `int32_t` values are integers; where the C arithmetic can leave the `int32_t`
  range the result is reduced with `wrapInt32` (two's complement).  `uint16_t`
  values are naturals reduced modulo `65536`.
* `float` values are the finite binary32 numbers, represented by the rationals they
  denote.  Each arithmetic operation is the exact rational operation followed by
  `roundF32` (round to nearest, ties to even, 24-bit significand, gradual underflow).
  Infinities and NaN are outside the model.
* `powf` (libm) and `quickMedianFilter3` (`common/maths.c`) are not part of the
  translated file; the functions that call them take them as parameters.
* The hardware device (`baro.dev`) is a record of operations acting on an abstract
  hardware state; the configuration installed with `useBarometerConfig` is a field
  of the state.
-/

namespace Barometer

/-! ## Machine integers -/

/-- Reduction of an integer to the `int32_t` range (two's complement wrap-around). -/
def wrapInt32 (x : Int) : Int :=
  (x + 2147483648) % 4294967296 - 2147483648

/-- Membership in the `int32_t` range. -/
def isInt32 (x : Int) : Prop :=
  -2147483648 ≤ x ∧ x ≤ 2147483647

instance (x : Int) : Decidable (isInt32 x) := by
  unfold isInt32; infer_instance

/-- The C expression `x - 1` on a `uint16_t` variable (what `calibratingB--` stores). -/
def decUInt16 (x : Nat) : Nat :=
  (x + 65535) % 65536

/-! ## Single-precision arithmetic -/

/-- Rounding of a rational to the nearest integer, ties to the even integer. -/
def roundHalfEven (q : ℚ) : Int :=
  let f := Int.floor q
  let r := q - f
  if r < 1 / 2 then f
  else if 1 / 2 < r then f + 1
  else if f % 2 = 0 then f else f + 1

/-- Exponent `e` of the binade `2^e ≤ |q| < 2^(e+1)` of a non-zero rational. -/
def binade (q : ℚ) : Int :=
  Int.log 2 |q|

/-- Rounding of a rational to binary32: nearest value with a 24-bit significand, ties
to even; below `2^-126` the spacing stays `2^-149` (subnormal numbers). -/
def roundF32 (q : ℚ) : ℚ :=
  if q = 0 then 0
  else
    let e := max (binade q) (-126)
    (roundHalfEven (q / (2 : ℚ) ^ (e - 23)) : ℚ) * (2 : ℚ) ^ (e - 23)

/-- Conversion `(float) n` of an integer. -/
def intToFloat (n : Int) : ℚ :=
  roundF32 (n : ℚ)

/-- Single-precision subtraction. -/
def fsub (a b : ℚ) : ℚ :=
  roundF32 (a - b)

/-- Single-precision multiplication. -/
def fmul (a b : ℚ) : ℚ :=
  roundF32 (a * b)

/-- Single-precision division. -/
def fdiv (a b : ℚ) : ℚ :=
  roundF32 (a / b)

/-- Function `lrintf` under the default rounding mode (to nearest, ties to even). -/
def lrintf (x : ℚ) : Int :=
  roundHalfEven x

/-- Conversion of a `float` to an integer type: the fractional part is discarded. -/
def floatToInt (x : ℚ) : Int :=
  if 0 ≤ x then Int.floor x else Int.ceil x

/-- The literal `101325.0f`. -/
def SEA_LEVEL_PRESSURE : ℚ :=
  roundF32 101325

/-- The literal `0.190295f`. -/
def BARO_EXPONENT : ℚ :=
  roundF32 (190295 / 1000000)

/-- The literal `4433000.0f`. -/
def BARO_SCALE : ℚ :=
  roundF32 4433000

/-- The expression `(1.0f - powf(x / 101325.0f, 0.190295f)) * 4433000.0f` of
`performBaroCalibrationCycle` and `baroCalculateAltitude`, for a `float` operand `x`.
The rationals stand for finite binary32 values only: for a negative `x` the C `powf`
yields a NaN, which has no counterpart here, so the statements that compare this
expression with the real formula are made for positive pressures. -/
def pressureToAltitude (powf : ℚ → ℚ → ℚ) (x : ℚ) : ℚ :=
  fmul (fsub (roundF32 1) (powf (fdiv x SEA_LEVEL_PRESSURE) BARO_EXPONENT)) BARO_SCALE

/-- Partial sum `-(t + t^2/2 + ... + t^n/n)` of the series of `log (1 - t)`. -/
def logSeries (n : Nat) (t : ℚ) : ℚ :=
  -(∑ i in Finset.range n, t ^ (i + 1) / ((i : ℚ) + 1))

/-- Partial sum `1 + z + z^2/2! + ... + z^(n-1)/(n-1)!` of the exponential series. -/
def expSeries (n : Nat) (z : ℚ) : ℚ :=
  ∑ m in Finset.range n, z ^ m / (m.factorial : ℚ)

/-- A reference implementation of `powf` for bases close to 1, `exp (y * log x)`
with both functions replaced by six terms of their series and the result rounded to
binary32.  It instantiates the `powf` parameter in the concrete evaluations below. -/
def powfSeries (x y : ℚ) : ℚ :=
  roundF32 (expSeries 6 (y * logSeries 6 (1 - x)))

/-- Accuracy of a `powf` at one pair of operands: its result differs from the real
power `x ^ y` by at most `ε`. -/
def powfAccurateAt (powf : ℚ → ℚ → ℚ) (x y ε : ℚ) : Prop :=
  |((powf x y : ℚ) : ℝ) - (x : ℝ) ^ (y : ℝ)| ≤ (ε : ℝ)

/-! ## Median filter -/

/-- The macro `PRESSURE_SAMPLES_MEDIAN`. -/
def PRESSURE_SAMPLES_MEDIAN : Int := 3

/-- The function-scope statics of `applyBarometerMedianFilter`. -/
structure medianFilter_t where
  barometerFilterSamples : List Int
  currentFilterSampleIndex : Int
  medianFilterReady : Bool
deriving DecidableEq, Repr

/-- Static initialisation of the filter: zeroed buffer, cursor 0, not ready. -/
def medianFilterInit : medianFilter_t :=
  { barometerFilterSamples := [0, 0, 0]
    currentFilterSampleIndex := 0
    medianFilterReady := false }

/-- The function `applyBarometerMedianFilter`; the first argument is the external
`quickMedianFilter3`, applied to the sample buffer. -/
def applyBarometerMedianFilter (quickMedianFilter3 : List Int → Int)
    (f : medianFilter_t) (newPressureReading : Int) : medianFilter_t × Int :=
  let wrapped : Bool := f.currentFilterSampleIndex + 1 == PRESSURE_SAMPLES_MEDIAN
  let nextSampleIndex : Int := if wrapped then 0 else f.currentFilterSampleIndex + 1
  let ready : Bool := if wrapped then true else f.medianFilterReady
  let samples : List Int :=
    f.barometerFilterSamples.set f.currentFilterSampleIndex.toNat newPressureReading
  ({ barometerFilterSamples := samples
     currentFilterSampleIndex := nextSampleIndex
     medianFilterReady := ready },
   if ready then quickMedianFilter3 samples else newPressureReading)

/-- Modelled from the spec: quickMedianFilter3 of common/maths.c, which is not among
the translated sources.  It returns the middle value of the three buffered samples
(rank 1 of 3, neither the minimum nor the maximum), here through the three
compare-and-swap steps of a sorting network. -/
def quickMedianFilter3 (v : List Int) : Int :=
  match v with
  | [a, b, c] =>
    let p0 := min a b
    let p1 := max a b
    let q1 := min p1 c
    max p0 q1
  | _ => 0

/-- The value of three integers that is neither their minimum nor their maximum
(the shared value when two of them coincide). -/
def median3 (a b c : Int) : Int :=
  a + b + c - min a (min b c) - max a (max b c)

/-- Specification of a median: `m` is one of the samples, at least two samples are
`≤ m` and at least two are `≥ m`. -/
def isMedianOf (v : List Int) (m : Int) : Prop :=
  m ∈ v ∧ 2 ≤ v.countP (fun x => decide (x ≤ m)) ∧ 2 ≤ v.countP (fun x => decide (m ≤ x))

instance (v : List Int) (m : Int) : Decidable (isMedianOf v m) := by
  unfold isMedianOf; infer_instance

/-- Well-formedness of the filter statics: three slots and a cursor inside them. -/
def filterWf (f : medianFilter_t) : Prop :=
  f.barometerFilterSamples.length = 3
    ∧ (f.currentFilterSampleIndex = 0 ∨ f.currentFilterSampleIndex = 1
        ∨ f.currentFilterSampleIndex = 2)

/-- Successive pushes of a list of samples through the filter: the final filter state
and the list of returned values, in call order. -/
def pushSamples (qmf : List Int → Int) (f : medianFilter_t) :
    List Int → medianFilter_t × List Int
  | [] => (f, [])
  | s :: rest =>
    let r := applyBarometerMedianFilter qmf f s
    let t := pushSamples qmf r.1 rest
    (t.1, r.2 :: t.2)

/-! ## Device, configuration and state -/

/-- The enumeration `barometerState_e`. -/
inductive barometerState_e where
  | BAROMETER_NEEDS_SAMPLES
  | BAROMETER_NEEDS_CALCULATION
deriving DecidableEq, Repr

/-- Operations of the hardware device, as recorded in the call log. -/
inductive baroOp where
  | get_ut
  | start_up
  | get_up
  | start_ut
  | calculate
deriving DecidableEq, Repr

/-- Modelled from the spec: the type of the device record `baro.dev`, declared in
`drivers/barometer.h`, which is not among the sources.  It holds the two settling
delays and the start/read operations of the temperature and pressure conversions,
acting on the hardware state `H`, and the calculation operation, which also yields
the compensated pressure and the temperature it writes through its two pointers. -/
structure baroDev_t (H : Type) where
  ut_delay : Nat
  up_delay : Nat
  start_ut : H → H
  get_ut : H → H
  start_up : H → H
  get_up : H → H
  calculate : H → H × Int × Int

/-- Modelled from the spec: the configuration record `barometerConfig_t`, declared in
`sensors/barometer.h`, which is not among the sources; a single boolean that enables
median filtering. -/
structure barometerConfig_t where
  use_median_filtering : Bool
deriving DecidableEq, Repr

/-- All mutable state of the file, together with the hardware state `hw`, the log
`devLog` of device operations performed so far (most recent first) and the
hardware-in-the-loop inputs `hilActive` and `hilBaroAlt` (`hilToFC.baroAlt`). -/
structure BaroState (H : Type) where
  hw : H
  devLog : List baroOp
  baroTemperature : Int
  BaroAlt : Int
  calibratingB : Nat
  baroPressure : Int
  baroGroundAltitude : Int
  baroGroundPressure : Int
  barometerConfig : barometerConfig_t
  baroReady : Bool
  filter : medianFilter_t
  state : barometerState_e
  hilActive : Bool
  hilBaroAlt : Int

/-- State at program start: every static at its initialiser. -/
def initialState {H : Type} (hw : H) (cfg : barometerConfig_t) : BaroState H :=
  { hw := hw
    devLog := []
    baroTemperature := 0
    BaroAlt := 0
    calibratingB := 0
    baroPressure := 0
    baroGroundAltitude := 0
    baroGroundPressure := 0
    barometerConfig := cfg
    baroReady := false
    filter := medianFilterInit
    state := barometerState_e.BAROMETER_NEEDS_SAMPLES
    hilActive := false
    hilBaroAlt := 0 }

/-- A simulated device for concrete evaluations: the hardware state counts the
conversions started, and `calculate` reports a pressure that drifts with it. -/
def simDev (ut_delay up_delay : Nat) : baroDev_t Nat :=
  { ut_delay := ut_delay
    up_delay := up_delay
    start_ut := fun n => n + 1
    get_ut := fun n => n
    start_up := fun n => n + 1
    get_up := fun n => n
    calculate := fun n => (n, 100000 + (n : Int), 2500) }

/-- The state used in the concrete evaluations of the altitude: power-on state
(calibration complete, ground altitude 0) with the given filtered pressure. -/
def calibratedAt (p : Int) : BaroState Nat :=
  { initialState (0 : Nat) ⟨true⟩ with baroPressure := p }

/-! ## Configuration and readiness -/

/-- The function `useBarometerConfig`: installs the configuration. -/
def useBarometerConfig {H : Type} (st : BaroState H)
    (barometerConfigToUse : barometerConfig_t) : BaroState H :=
  { st with barometerConfig := barometerConfigToUse }

/-- The function `isBaroReady`. -/
def isBaroReady {H : Type} (st : BaroState H) : Bool :=
  st.baroReady

/-! ## Calibration counter -/

/-- The function `isBaroCalibrationComplete`. -/
def isBaroCalibrationComplete {H : Type} (st : BaroState H) : Bool :=
  st.calibratingB == 0

/-- The function `baroSetCalibrationCycles`; the argument is a `uint16_t`. -/
def baroSetCalibrationCycles {H : Type} (st : BaroState H)
    (calibrationCyclesRequired : Nat) : BaroState H :=
  { st with calibratingB := calibrationCyclesRequired % 65536 }

/-! ## Acquisition state machine -/

/-- The function `baroUpdate`: the state after the call and the returned delay. -/
def baroUpdate {H : Type} (qmf : List Int → Int) (dev : baroDev_t H)
    (st : BaroState H) : BaroState H × Nat :=
  match st.state with
  | barometerState_e.BAROMETER_NEEDS_SAMPLES =>
    let hw1 := dev.get_ut st.hw
    let hw2 := dev.start_up hw1
    ({ st with
        hw := hw2
        devLog := baroOp.start_up :: baroOp.get_ut :: st.devLog
        state := barometerState_e.BAROMETER_NEEDS_CALCULATION },
     dev.up_delay)
  | barometerState_e.BAROMETER_NEEDS_CALCULATION =>
    let hw1 := dev.get_up st.hw
    let hw2 := dev.start_ut hw1
    let c := dev.calculate hw2
    let st1 : BaroState H :=
      { st with
          hw := c.1
          devLog := baroOp.calculate :: baroOp.start_ut :: baroOp.get_up :: st.devLog
          baroPressure := c.2.1
          baroTemperature := c.2.2 }
    let st2 : BaroState H :=
      if st1.barometerConfig.use_median_filtering then
        let r := applyBarometerMedianFilter qmf st1.filter st1.baroPressure
        { st1 with filter := r.1, baroPressure := r.2 }
      else st1
    ({ st2 with state := barometerState_e.BAROMETER_NEEDS_SAMPLES }, dev.ut_delay)

/-- The state after `n` successive calls of `baroUpdate`. -/
def baroUpdateN {H : Type} (qmf : List Int → Int) (dev : baroDev_t H) :
    Nat → BaroState H → BaroState H
  | 0, st => st
  | n + 1, st => baroUpdateN qmf dev n (baroUpdate qmf dev st).1

/-- The delay returned by call number `n + 1` of `baroUpdate` counted from `st`. -/
def baroUpdateDelay {H : Type} (qmf : List Int → Int) (dev : baroDev_t H)
    (n : Nat) (st : BaroState H) : Nat :=
  (baroUpdate qmf dev (baroUpdateN qmf dev n st)).2

/-- Number of `calculate` operations in a device log. -/
def calculateCount (log : List baroOp) : Nat :=
  log.count baroOp.calculate

/-- One full acquisition cycle as the state table of the acquisition state machine
describes it, for comparison with two successive calls of `baroUpdate`: read the
temperature sample, start the pressure conversion, read the pressure result, start the
temperature conversion, compute the compensated pressure and temperature, store both
(the pressure through the median filter when filtering is enabled), and be back in
`BAROMETER_NEEDS_SAMPLES`. -/
def acquisitionCycle {H : Type} (qmf : List Int → Int) (dev : baroDev_t H)
    (st : BaroState H) : BaroState H :=
  let c := dev.calculate (dev.start_ut (dev.get_up (dev.start_up (dev.get_ut st.hw))))
  let r := applyBarometerMedianFilter qmf st.filter c.2.1
  { st with
      hw := c.1
      devLog := baroOp.calculate :: baroOp.start_ut :: baroOp.get_up :: baroOp.start_up
        :: baroOp.get_ut :: st.devLog
      baroTemperature := c.2.2
      baroPressure := if st.barometerConfig.use_median_filtering then r.2 else c.2.1
      filter := if st.barometerConfig.use_median_filtering then r.1 else st.filter
      state := barometerState_e.BAROMETER_NEEDS_SAMPLES }

/-! ## Ground calibration and altitude -/

/-- The function `performBaroCalibrationCycle`. -/
def performBaroCalibrationCycle {H : Type} (powf : ℚ → ℚ → ℚ)
    (st : BaroState H) : BaroState H :=
  let g1 := wrapInt32 (st.baroGroundPressure - Int.tdiv st.baroGroundPressure 8)
  let g2 := wrapInt32 (g1 + st.baroPressure)
  let alt := pressureToAltitude powf (intToFloat (Int.tdiv g2 8))
  { st with
      baroGroundPressure := g2
      baroGroundAltitude := wrapInt32 (floatToInt alt)
      calibratingB := decUInt16 st.calibratingB }

/-- The function `baroCalculateAltitude`: the state after the call and the returned
altitude.  For a negative `baroPressure` the C `powf` yields a NaN and the result of
`lrintf` is then unspecified; the value computed here for such a state describes no
run of the C code. -/
def baroCalculateAltitude {H : Type} (powf : ℚ → ℚ → ℚ)
    (st : BaroState H) : BaroState H × Int :=
  if !isBaroCalibrationComplete st then
    let st1 := performBaroCalibrationCycle powf st
    ({ st1 with BaroAlt := 0 }, 0)
  else if st.hilActive then
    ({ st with BaroAlt := st.hilBaroAlt }, st.hilBaroAlt)
  else
    let a := wrapInt32 (lrintf (pressureToAltitude powf (intToFloat st.baroPressure)))
    let r := wrapInt32 (a - st.baroGroundAltitude)
    ({ st with BaroAlt := r }, r)

/-- The state after `n` successive calls of `baroCalculateAltitude`. -/
def baroCalculateAltitudeN {H : Type} (powf : ℚ → ℚ → ℚ) :
    Nat → BaroState H → BaroState H
  | 0, st => st
  | n + 1, st => baroCalculateAltitudeN powf n (baroCalculateAltitude powf st).1

/-! ## Runs of calls -/

/-- The state after `n` successive calls of `performBaroCalibrationCycle`, the
filtered pressure staying as it is. -/
def performBaroCalibrationCycleN {H : Type} (powf : ℚ → ℚ → ℚ) :
    Nat → BaroState H → BaroState H
  | 0, st => st
  | n + 1, st => performBaroCalibrationCycle powf (performBaroCalibrationCycleN powf n st)

/-- A run of calibration cycles, one for each filtered pressure of the list: the
pressure is stored in `baroPressure` (as `baroUpdate` does) and
`performBaroCalibrationCycle` is called. -/
def calibrateWithSamples {H : Type} (powf : ℚ → ℚ → ℚ) (ps : List Int)
    (st : BaroState H) : BaroState H :=
  ps.foldl (fun s p => performBaroCalibrationCycle powf { s with baroPressure := p }) st

/-- The two entry points called periodically once the barometer is set up. -/
inductive baroCall where
  | update
  | calculateAltitude
deriving DecidableEq, Repr

/-- The state after a sequence of calls of `baroUpdate` and `baroCalculateAltitude`,
in the order of the list. -/
def runCalls {H : Type} (qmf : List Int → Int) (dev : baroDev_t H) (powf : ℚ → ℚ → ℚ) :
    List baroCall → BaroState H → BaroState H
  | [], st => st
  | baroCall.update :: cs, st => runCalls qmf dev powf cs (baroUpdate qmf dev st).1
  | baroCall.calculateAltitude :: cs, st =>
    runCalls qmf dev powf cs (baroCalculateAltitude powf st).1

/-- The ground-pressure accumulator after `n` calibration cycles from `st`. -/
def groundPressureAfter {H : Type} (powf : ℚ → ℚ → ℚ) (st : BaroState H) (n : Nat) : Int :=
  (performBaroCalibrationCycleN powf n st).baroGroundPressure

/-! ## Filter states around a spike -/

/-- Filter states in which every slot other than the one under the cursor holds `v`,
and the filter is ready or becomes ready with the next push. -/
def othersHold (v : Int) (f : medianFilter_t) : Prop :=
  (∃ a : Int, f = ⟨[a, v, v], 0, true⟩)
    ∨ (∃ b : Int, f = ⟨[v, b, v], 1, true⟩)
    ∨ (∃ (c : Int) (r : Bool), f = ⟨[v, v, c], 2, r⟩)

/-- Ready filter states in which at least two of the three slots hold `v`. -/
def twoHold (v : Int) (f : medianFilter_t) : Prop :=
  ∃ (y i : Int), (i = 0 ∨ i = 1 ∨ i = 2)
    ∧ (f = ⟨[y, v, v], i, true⟩ ∨ f = ⟨[v, y, v], i, true⟩ ∨ f = ⟨[v, v, y], i, true⟩)

/-! ## Single-precision arithmetic: lemmas -/

theorem roundHalfEven_cases (q : ℚ) :
    roundHalfEven q = Int.floor q ∨ roundHalfEven q = Int.floor q + 1 := by
  unfold roundHalfEven
  simp only
  split_ifs <;> simp

theorem roundHalfEven_sub_le (q : ℚ) : |(roundHalfEven q : ℚ) - q| ≤ 1 / 2 := by
  have h1 := Int.floor_le q
  have h2 := Int.lt_floor_add_one q
  unfold roundHalfEven
  simp only
  rw [abs_le]
  split_ifs with a b c <;> push_cast <;> constructor <;> linarith

theorem roundHalfEven_eq_of_abs_lt (q : ℚ) (k : Int) (h : |q - k| < 1 / 2) :
    roundHalfEven q = k := by
  have h0 := roundHalfEven_sub_le q
  rw [abs_lt] at h
  rw [abs_le] at h0
  have h3 : ((roundHalfEven q - k : Int) : ℚ) < 1 := by push_cast; linarith
  have h4 : (-1 : ℚ) < ((roundHalfEven q - k : Int) : ℚ) := by push_cast; linarith
  have h5 : roundHalfEven q - k < 1 := by exact_mod_cast h3
  have h6 : -1 < roundHalfEven q - k := by exact_mod_cast h4
  omega

theorem roundHalfEven_intCast (n : Int) : roundHalfEven (n : ℚ) = n :=
  roundHalfEven_eq_of_abs_lt _ n (by simp)

theorem roundHalfEven_eq_zero (q : ℚ) (h : |q| ≤ 1 / 2) : roundHalfEven q = 0 := by
  rw [abs_le] at h
  unfold roundHalfEven
  simp only
  have h1 := Int.floor_le q
  have h2 := Int.lt_floor_add_one q
  have hf : Int.floor q = 0 ∨ Int.floor q = -1 := by
    have a : (Int.floor q : ℚ) < 1 := by linarith
    have b : (-2 : ℚ) < (Int.floor q : ℚ) := by linarith
    have a' : Int.floor q < 1 := by exact_mod_cast a
    have b' : -2 < Int.floor q := by exact_mod_cast b
    omega
  rcases hf with hf | hf
  · rw [hf]
    split_ifs with a b c
    · rfl
    · exfalso; push_cast at b; linarith
    · rfl
    · exfalso; exact c rfl
  · rw [hf]
    split_ifs with a b c
    · exfalso; push_cast at a; linarith
    · norm_num
    · exfalso; revert c; decide
    · norm_num

theorem roundHalfEven_le_of_le (q : ℚ) (n : Int) (h : q ≤ n) : roundHalfEven q ≤ n := by
  have h0 := (abs_le.1 (roundHalfEven_sub_le q)).2
  have : ((roundHalfEven q : Int) : ℚ) < ((n + 1 : Int) : ℚ) := by push_cast; linarith
  have := Int.cast_lt.1 this
  omega

theorem roundHalfEven_ge_of_ge (q : ℚ) (n : Int) (h : (n : ℚ) ≤ q) : n ≤ roundHalfEven q := by
  have h0 := (abs_le.1 (roundHalfEven_sub_le q)).1
  have : ((n - 1 : Int) : ℚ) < ((roundHalfEven q : Int) : ℚ) := by push_cast; linarith
  have := Int.cast_lt.1 this
  omega

theorem binade_eq (q : ℚ) (e : ℤ) (h1 : (2 : ℚ) ^ e ≤ |q|) (h2 : |q| < (2 : ℚ) ^ (e + 1)) :
    binade q = e := by
  have hq : 0 < |q| := lt_of_lt_of_le (by positivity) h1
  unfold binade
  apply le_antisymm
  · have := (Int.lt_zpow_iff_log_lt (b := 2) (by norm_num) hq (x := e + 1)).1 (by exact_mod_cast h2)
    omega
  · exact (Int.zpow_le_iff_le_log (b := 2) (by norm_num) hq).1 (by exact_mod_cast h1)

theorem roundF32_of_binade (q : ℚ) (e : ℤ) (he : -126 ≤ e)
    (h1 : (2 : ℚ) ^ e ≤ |q|) (h2 : |q| < (2 : ℚ) ^ (e + 1)) :
    roundF32 q = (roundHalfEven (q / (2 : ℚ) ^ (e - 23)) : ℚ) * (2 : ℚ) ^ (e - 23) := by
  have hq : 0 < |q| := lt_of_lt_of_le (by positivity) h1
  have hq0 : q ≠ 0 := abs_pos.1 hq
  unfold roundF32
  rw [if_neg hq0, binade_eq q e h1 h2, max_eq_left he]

theorem roundF32_error (q : ℚ) (e : ℤ) (he : -126 ≤ e)
    (h1 : (2 : ℚ) ^ e ≤ |q|) (h2 : |q| < (2 : ℚ) ^ (e + 1)) :
    |roundF32 q - q| ≤ (2 : ℚ) ^ (e - 24) := by
  rw [roundF32_of_binade q e he h1 h2]
  have hu : (0 : ℚ) < (2 : ℚ) ^ (e - 23) := by positivity
  have h := roundHalfEven_sub_le (q / (2 : ℚ) ^ (e - 23))
  have e1 : (roundHalfEven (q / (2 : ℚ) ^ (e - 23)) : ℚ) * (2 : ℚ) ^ (e - 23) - q
      = ((roundHalfEven (q / (2 : ℚ) ^ (e - 23)) : ℚ) - q / (2 : ℚ) ^ (e - 23)) * (2 : ℚ) ^ (e - 23) := by
    field_simp
  rw [e1, abs_mul, abs_of_pos hu]
  have e2 : (2 : ℚ) ^ (e - 24) = 1 / 2 * (2 : ℚ) ^ (e - 23) := by
    rw [show e - 23 = (e - 24) + 1 by ring, zpow_add_one₀ (by norm_num)]
    ring
  rw [e2]
  exact mul_le_mul_of_nonneg_right h hu.le

theorem roundF32_zero : roundF32 0 = 0 := by
  simp [roundF32]

theorem binade_spec (q : ℚ) (hq : q ≠ 0) :
    (2 : ℚ) ^ binade q ≤ |q| ∧ |q| < (2 : ℚ) ^ (binade q + 1) := by
  have h : 0 < |q| := abs_pos.2 hq
  constructor
  · have := Int.zpow_log_le_self (b := 2) (by norm_num) h
    exact_mod_cast this
  · have := Int.lt_zpow_succ_log_self (b := 2) (by norm_num) |q|
    exact_mod_cast this

theorem roundF32_intCast (n : Int) (hn : |n| < 16777216) : roundF32 (n : ℚ) = n := by
  by_cases h0 : n = 0
  · subst h0; simp [roundF32]
  have hq : (n : ℚ) ≠ 0 := by exact_mod_cast h0
  obtain ⟨h1, h2⟩ := binade_spec (n : ℚ) hq
  have hge : (1 : ℚ) ≤ |(n : ℚ)| := by
    have : (1 : Int) ≤ |n| := Int.one_le_abs h0
    exact_mod_cast this
  have hlt : |(n : ℚ)| < (2 : ℚ) ^ (24 : ℤ) := by
    have : ((|n| : Int) : ℚ) < 16777216 := by exact_mod_cast hn
    rw [Int.cast_abs] at this
    norm_num
    exact this
  have he0 : 0 ≤ binade (n : ℚ) := by
    by_contra hneg
    push_neg at hneg
    have : (2 : ℚ) ^ (binade (n : ℚ) + 1) ≤ (2 : ℚ) ^ (0 : ℤ) :=
      zpow_le_zpow_right₀ (by norm_num) (by omega)
    simp at this
    linarith
  have he1 : binade (n : ℚ) < 24 := by
    by_contra hge'
    push_neg at hge'
    have : (2 : ℚ) ^ (24 : ℤ) ≤ (2 : ℚ) ^ (binade (n : ℚ)) :=
      zpow_le_zpow_right₀ (by norm_num) hge'
    linarith
  rw [roundF32_of_binade (n : ℚ) (binade (n : ℚ)) (by omega) h1 h2]
  obtain ⟨k, hk⟩ : ∃ k : ℕ, (k : ℤ) = 23 - binade (n : ℚ) := ⟨(23 - binade (n : ℚ)).toNat, by omega⟩
  have hpow : (2 : ℚ) ^ (binade (n : ℚ) - 23) = ((2 : ℚ) ^ k)⁻¹ := by
    rw [show binade (n : ℚ) - 23 = -(k : ℤ) by omega, zpow_neg, zpow_natCast]
  rw [hpow]
  have hint : (n : ℚ) / ((2 : ℚ) ^ k)⁻¹ = ((n * 2 ^ k : Int) : ℚ) := by
    push_cast
    field_simp
  rw [hint, roundHalfEven_intCast]
  push_cast
  field_simp

theorem roundF32_abs_le_two_zpow (q : ℚ) (k : ℤ) (hk : -126 ≤ k) (h : |q| ≤ (2 : ℚ) ^ k) :
    |roundF32 q| ≤ (2 : ℚ) ^ k := by
  by_cases h0 : q = 0
  · subst h0; rw [roundF32_zero]; simpa using (by positivity : (0 : ℚ) ≤ (2 : ℚ) ^ k)
  obtain ⟨h1, h2⟩ := binade_spec q h0
  have hek : binade q ≤ k := by
    by_contra hc
    push_neg at hc
    have : (2 : ℚ) ^ (k + 1) ≤ (2 : ℚ) ^ binade q := zpow_le_zpow_right₀ (by norm_num) (by omega)
    have : (2 : ℚ) ^ k < (2 : ℚ) ^ (k + 1) := zpow_lt_zpow_right₀ (by norm_num) (by omega)
    linarith
  unfold roundF32
  rw [if_neg h0]
  simp only
  set e := max (binade q) (-126) with he
  have hek' : e ≤ k := max_le hek hk
  have hu : (0 : ℚ) < (2 : ℚ) ^ (e - 23) := by positivity
  obtain ⟨m, hm⟩ : ∃ m : ℕ, (m : ℤ) = k - (e - 23) := ⟨(k - (e - 23)).toNat, by omega⟩
  have hN : (2 : ℚ) ^ k = ((2 ^ m : Int) : ℚ) * (2 : ℚ) ^ (e - 23) := by
    push_cast
    rw [← zpow_natCast, ← zpow_add₀ (by norm_num), hm]
    congr 1
    ring
  have hq' : |q / (2 : ℚ) ^ (e - 23)| ≤ ((2 ^ m : Int) : ℚ) := by
    rw [abs_div, abs_of_pos hu, div_le_iff₀ hu, ← hN]
    exact h
  rw [abs_le] at hq'
  have hup := roundHalfEven_le_of_le _ _ hq'.2
  have hlo := roundHalfEven_ge_of_ge (q / (2 : ℚ) ^ (e - 23)) (-(2 ^ m : Int)) (by push_cast; push_cast at hq'; exact hq'.1)
  rw [abs_mul, abs_of_pos hu, hN]
  apply mul_le_mul_of_nonneg_right _ hu.le
  rw [abs_le]
  constructor
  · have : ((-(2 ^ m : Int) : Int) : ℚ) ≤ (roundHalfEven (q / (2 : ℚ) ^ (e - 23)) : ℚ) := by exact_mod_cast hlo
    push_cast at this ⊢
    exact this
  · exact_mod_cast hup

/-! ## Enclosures of real powers -/

theorem rpow_one_sub_lower (t c z : ℝ) (ht0 : 0 ≤ t) (ht1 : t < 1) (hc0 : 0 ≤ c)
    (hz : z ≤ c * (-(t + t ^ 2 / 2 + t ^ 3 / 3 + t ^ 4 / 4) - t ^ 5 / (1 - t)))
    (hz1 : |z| ≤ 1) :
    1 + z + z ^ 2 / 2 + z ^ 3 / 6 - |z| ^ 4 * (5 / 96) ≤ (1 - t) ^ c := by
  have hlog := Real.abs_log_sub_add_sum_range_le (x := t) (by rw [abs_of_nonneg ht0]; exact ht1) 4
  rw [abs_of_nonneg ht0] at hlog
  simp only [Finset.sum_range_succ, Finset.sum_range_zero] at hlog
  norm_num at hlog
  have hl := (abs_le.1 hlog).1
  have hpos : 0 < 1 - t := by linarith
  rw [Real.rpow_def_of_pos hpos]
  have h1 : z ≤ Real.log (1 - t) * c := by
    refine le_trans hz ?_
    rw [mul_comm]
    apply mul_le_mul_of_nonneg_right _ hc0
    linarith
  have h2 := Real.exp_le_exp.2 h1
  have hb := Real.exp_bound hz1 (n := 4) (by norm_num)
  simp only [Finset.sum_range_succ, Finset.sum_range_zero] at hb
  norm_num [Nat.factorial] at hb
  have hb1 := (abs_le.1 hb).1
  linarith

theorem rpow_one_sub_upper (t c z : ℝ) (ht0 : 0 ≤ t) (ht1 : t < 1) (hc0 : 0 ≤ c)
    (hz : c * (-(t + t ^ 2 / 2 + t ^ 3 / 3 + t ^ 4 / 4) + t ^ 5 / (1 - t)) ≤ z)
    (hz1 : |z| ≤ 1) :
    (1 - t) ^ c ≤ 1 + z + z ^ 2 / 2 + z ^ 3 / 6 + |z| ^ 4 * (5 / 96) := by
  have hlog := Real.abs_log_sub_add_sum_range_le (x := t) (by rw [abs_of_nonneg ht0]; exact ht1) 4
  rw [abs_of_nonneg ht0] at hlog
  simp only [Finset.sum_range_succ, Finset.sum_range_zero] at hlog
  norm_num at hlog
  have hl := (abs_le.1 hlog).2
  have hpos : 0 < 1 - t := by linarith
  rw [Real.rpow_def_of_pos hpos]
  have h1 : Real.log (1 - t) * c ≤ z := by
    refine le_trans ?_ hz
    rw [mul_comm]
    apply mul_le_mul_of_nonneg_left _ hc0
    linarith
  have h2 := Real.exp_le_exp.2 h1
  have hb := Real.exp_bound hz1 (n := 4) (by norm_num)
  simp only [Finset.sum_range_succ, Finset.sum_range_zero] at hb
  norm_num [Nat.factorial] at hb
  have hb1 := (abs_le.1 hb).2
  linarith

theorem rpow_float_operands :
    (9974982858 / 10000000000 : ℝ)
        ≤ (((16557825 / 16777216 : ℚ) : ℝ)) ^ (((12770481 / 67108864 : ℚ) : ℝ))
      ∧ (((16557825 / 16777216 : ℚ) : ℝ)) ^ (((12770481 / 67108864 : ℚ) : ℝ))
        ≤ (9974982864 / 10000000000 : ℝ) := by
  have hb : (((16557825 / 16777216 : ℚ) : ℝ)) = 1 - 219391 / 16777216 := by norm_num
  have hc : (((12770481 / 67108864 : ℚ) : ℝ)) = 12770481 / 67108864 := by norm_num
  rw [hb, hc]
  constructor
  · have h := rpow_one_sub_lower (219391 / 16777216) (12770481 / 67108864)
      (-25048486 / 10000000000) (by norm_num) (by norm_num) (by norm_num) (by norm_num)
      (by rw [abs_le]; constructor <;> norm_num)
    refine le_trans ?_ h
    rw [abs_of_neg (by norm_num)]
    norm_num
  · have h := rpow_one_sub_upper (219391 / 16777216) (12770481 / 67108864)
      (-25048482 / 10000000000) (by norm_num) (by norm_num) (by norm_num) (by norm_num)
      (by rw [abs_le]; constructor <;> norm_num)
    refine le_trans h ?_
    rw [abs_of_neg (by norm_num)]
    norm_num

theorem rpow_documented_operands :
    (9974982838 / 10000000000 : ℝ) ≤ ((100000 : ℝ) / 101325) ^ (190295 / 1000000 : ℝ)
      ∧ ((100000 : ℝ) / 101325) ^ (190295 / 1000000 : ℝ) ≤ (9974982842 / 10000000000 : ℝ) := by
  have hb : ((100000 : ℝ) / 101325) = 1 - 53 / 4053 := by norm_num
  rw [hb]
  constructor
  · have h := rpow_one_sub_lower (53 / 4053) (190295 / 1000000)
      (-25048506 / 10000000000) (by norm_num) (by norm_num) (by norm_num) (by norm_num)
      (by rw [abs_le]; constructor <;> norm_num)
    refine le_trans ?_ h
    rw [abs_of_neg (by norm_num)]
    norm_num
  · have h := rpow_one_sub_upper (53 / 4053) (190295 / 1000000)
      (-25048504 / 10000000000) (by norm_num) (by norm_num) (by norm_num) (by norm_num)
      (by rw [abs_le]; constructor <;> norm_num)
    refine le_trans h ?_
    rw [abs_of_neg (by norm_num)]
    norm_num

/-! ## Evaluation of the altitude expression -/

theorem roundF32_eval (q : ℚ) (e k : ℤ) (he : -126 ≤ e)
    (h1 : (2 : ℚ) ^ e ≤ |q|) (h2 : |q| < (2 : ℚ) ^ (e + 1))
    (hk : |q / (2 : ℚ) ^ (e - 23) - k| < 1 / 2) :
    roundF32 q = (k : ℚ) * (2 : ℚ) ^ (e - 23) := by
  rw [roundF32_of_binade q e he h1 h2, roundHalfEven_eq_of_abs_lt _ k hk]

theorem roundF32_one : roundF32 1 = 1 := by
  simpa using roundF32_intCast 1 (by norm_num)

theorem SEA_LEVEL_PRESSURE_eq : SEA_LEVEL_PRESSURE = 101325 := by
  simpa [SEA_LEVEL_PRESSURE] using roundF32_intCast 101325 (by norm_num)

theorem BARO_SCALE_eq : BARO_SCALE = 4433000 := by
  simpa [BARO_SCALE] using roundF32_intCast 4433000 (by norm_num)

theorem BARO_EXPONENT_eq : BARO_EXPONENT = 12770481 / 67108864 := by
  unfold BARO_EXPONENT
  rw [roundF32_eval (190295 / 1000000) (-3) 12770481 (by norm_num)
    (by rw [abs_of_pos (by norm_num)]; norm_num)
    (by rw [abs_of_pos (by norm_num)]; norm_num)
    (by rw [abs_lt]; constructor <;> norm_num)]
  norm_num

theorem intToFloat_small (n : Int) (hn : |n| < 16777216) : intToFloat n = n :=
  roundF32_intCast n hn

theorem ratio_100000 :
    fdiv (intToFloat 100000) SEA_LEVEL_PRESSURE = 16557825 / 16777216 := by
  rw [intToFloat_small 100000 (by norm_num), SEA_LEVEL_PRESSURE_eq]
  unfold fdiv
  rw [roundF32_eval _ (-1) 16557825 (by norm_num)
    (by rw [abs_of_pos (by norm_num)]; norm_num)
    (by rw [abs_of_pos (by norm_num)]; norm_num)
    (by rw [abs_lt]; constructor <;> norm_num)]
  norm_num

theorem ratio_101325 : fdiv (intToFloat 101325) SEA_LEVEL_PRESSURE = 1 := by
  rw [intToFloat_small 101325 (by norm_num), SEA_LEVEL_PRESSURE_eq]
  unfold fdiv
  norm_num
  exact roundF32_one

theorem wrapInt32_of_isInt32 (x : Int) (h : isInt32 x) : wrapInt32 x = x := by
  unfold isInt32 at h
  unfold wrapInt32
  omega

theorem wrapInt32_sub_exact (a g : Int) (ha : isInt32 a) (hd : isInt32 (a - g)) :
    wrapInt32 (wrapInt32 a - g) = a - g := by
  rw [wrapInt32_of_isInt32 a ha, wrapInt32_of_isInt32 _ hd]

theorem baroCalculateAltitude_calibrated {H : Type} (powf : ℚ → ℚ → ℚ) (st : BaroState H)
    (hc : isBaroCalibrationComplete st = true) (hh : st.hilActive = false) :
    (baroCalculateAltitude powf st).2
        = wrapInt32
            (wrapInt32 (lrintf (pressureToAltitude powf (intToFloat st.baroPressure)))
              - st.baroGroundAltitude)
      ∧ (baroCalculateAltitude powf st).1
        = { st with BaroAlt := (baroCalculateAltitude powf st).2 } := by
  simp [baroCalculateAltitude, hc, hh]

theorem pressureToAltitude_eq (powf : ℚ → ℚ → ℚ) (x : ℚ) :
    pressureToAltitude powf x
      = fmul (fsub 1 (powf (fdiv x 101325) BARO_EXPONENT)) 4433000 := by
  unfold pressureToAltitude
  rw [roundF32_one, SEA_LEVEL_PRESSURE_eq, BARO_SCALE_eq]

/-- Sea level: a `powf` result within `2^-23` of 1 yields an altitude within 1 cm of 0,
and the exact result 1 yields exactly 0. -/
theorem altitude_of_unit_ratio (P : ℚ) (hP : |P - 1| ≤ 1 / 2 ^ 23) :
    |wrapInt32 (lrintf (fmul (fsub 1 P) 4433000))| ≤ 1
      ∧ (P = 1 → wrapInt32 (lrintf (fmul (fsub 1 P) 4433000)) = 0) := by
  constructor
  · have hD : |fsub 1 P| ≤ (2 : ℚ) ^ (-23 : ℤ) := by
      apply roundF32_abs_le_two_zpow _ _ (by norm_num)
      rw [abs_sub_comm]
      refine le_trans hP ?_
      norm_num
    have hM : |fmul (fsub 1 P) 4433000| ≤ (2 : ℚ) ^ (0 : ℤ) := by
      apply roundF32_abs_le_two_zpow _ _ (by norm_num)
      rw [abs_mul]
      have : |fsub 1 P| * |(4433000 : ℚ)| ≤ (2 : ℚ) ^ (-23 : ℤ) * 4433000 := by
        rw [abs_of_pos (by norm_num : (0 : ℚ) < 4433000)]
        exact mul_le_mul_of_nonneg_right hD (by norm_num)
      refine le_trans this ?_
      norm_num
    rw [zpow_zero, abs_le] at hM
    have h1 := roundHalfEven_le_of_le _ 1 (by exact_mod_cast hM.2)
    have h2 := roundHalfEven_ge_of_ge (fmul (fsub 1 P) 4433000) (-1) (by exact_mod_cast hM.1)
    unfold lrintf
    rw [wrapInt32_of_isInt32 _ (by unfold isInt32; omega), abs_le]
    exact ⟨h2, h1⟩
  · intro h1
    subst h1
    simp [fsub, fmul, roundF32_zero, lrintf, roundHalfEven_eq_zero, wrapInt32]

/-- Pressure 100000: a `powf` result inside the enclosure of the real power widened
by `2^-21` yields an altitude between 11088 and 11092. -/
theorem altitude_of_ratio_100000 (P : ℚ)
    (hlo : 9974982858 / 10000000000 - 1 / 2 ^ 21 ≤ P)
    (hhi : P ≤ 9974982864 / 10000000000 + 1 / 2 ^ 21) :
    11088 ≤ wrapInt32 (lrintf (fmul (fsub 1 P) 4433000))
      ∧ wrapInt32 (lrintf (fmul (fsub 1 P) 4433000)) ≤ 11092 := by
  have hq0 : (0 : ℚ) < 1 - P := by linarith
  have hD := roundF32_error (1 - P) (-9) (by norm_num)
    (by rw [abs_of_pos hq0]; norm_num; linarith)
    (by rw [abs_of_pos hq0]; norm_num; linarith)
  rw [abs_le] at hD
  norm_num at hD
  have hDlo : 9974982858 / 10000000000 - 1 / 2 ^ 21 ≤ P := hlo
  have hm0 : (0 : ℚ) < fsub 1 P * 4433000 := by
    unfold fsub
    nlinarith [hD.1, hD.2]
  have hM := roundF32_error (fsub 1 P * 4433000) 13 (by norm_num)
    (by rw [abs_of_pos hm0]; unfold fsub; norm_num; linarith [hD.1, hD.2])
    (by rw [abs_of_pos hm0]; unfold fsub; norm_num; linarith [hD.1, hD.2])
  rw [abs_le] at hM
  norm_num at hM
  have hR := abs_le.1 (roundHalfEven_sub_le (fmul (fsub 1 P) 4433000))
  have hge : ((11087 : Int) : ℚ) < (roundHalfEven (fmul (fsub 1 P) 4433000) : ℚ) := by
    unfold fmul fsub at *
    push_cast
    linarith [hD.1, hD.2, hM.1, hM.2, hR.1, hR.2]
  have hle : (roundHalfEven (fmul (fsub 1 P) 4433000) : ℚ) < ((11093 : Int) : ℚ) := by
    unfold fmul fsub at *
    push_cast
    linarith [hD.1, hD.2, hM.1, hM.2, hR.1, hR.2]
  have hge' := Int.cast_lt.1 hge
  have hle' := Int.cast_lt.1 hle
  unfold lrintf
  rw [wrapInt32_of_isInt32 _ (by unfold isInt32; omega)]
  omega

theorem powf_enclosure_100000 (powf : ℚ → ℚ → ℚ)
    (hacc : powfAccurateAt powf (16557825 / 16777216) (12770481 / 67108864) (1 / 2 ^ 21)) :
    9974982858 / 10000000000 - 1 / 2 ^ 21 ≤ powf (16557825 / 16777216) (12770481 / 67108864)
      ∧ powf (16557825 / 16777216) (12770481 / 67108864)
          ≤ 9974982864 / 10000000000 + 1 / 2 ^ 21 := by
  unfold powfAccurateAt at hacc
  obtain ⟨b1, b2⟩ := rpow_float_operands
  rw [abs_le] at hacc
  constructor
  · have : (((9974982858 / 10000000000 - 1 / 2 ^ 21 : ℚ)) : ℝ)
        ≤ ((powf (16557825 / 16777216) (12770481 / 67108864) : ℚ) : ℝ) := by
      push_cast
      push_cast at hacc
      linarith [hacc.1]
    exact_mod_cast this
  · have : ((powf (16557825 / 16777216) (12770481 / 67108864) : ℚ) : ℝ)
        ≤ (((9974982864 / 10000000000 + 1 / 2 ^ 21 : ℚ)) : ℝ) := by
      push_cast
      push_cast at hacc
      linarith [hacc.2]
    exact_mod_cast this

theorem powfSeries_one (y : ℚ) : powfSeries 1 y = 1 := by
  simp [powfSeries, logSeries, expSeries, Finset.sum_range_succ, roundF32_one]

theorem powfSeries_100000 :
    powfSeries (16557825 / 16777216) (12770481 / 67108864) = 4183811 / 4194304 := by
  unfold powfSeries logSeries expSeries
  simp only [Finset.sum_range_succ, Finset.sum_range_zero]
  norm_num [Nat.factorial]
  rw [roundF32_eval _ (-1) 16735244 (by norm_num)
    (by rw [abs_of_pos (by norm_num)]; norm_num)
    (by rw [abs_of_pos (by norm_num)]; norm_num)
    (by rw [abs_lt]; constructor <;> norm_num)]
  norm_num

theorem powfSeries_accurate_100000 :
    powfAccurateAt powfSeries (16557825 / 16777216) (12770481 / 67108864) (1 / 2 ^ 21) := by
  unfold powfAccurateAt
  rw [powfSeries_100000]
  obtain ⟨b1, b2⟩ := rpow_float_operands
  rw [abs_le]
  push_cast
  constructor <;> linarith

theorem altitude_powfSeries_100000 :
    wrapInt32 (lrintf (fmul (fsub 1 (4183811 / 4194304)) 4433000)) = 11090 := by
  have hD : fsub 1 (4183811 / 4194304) = 10493 / 4194304 := by
    unfold fsub
    rw [roundF32_eval _ (-9) 10744832 (by norm_num)
      (by rw [abs_of_pos (by norm_num)]; norm_num)
      (by rw [abs_of_pos (by norm_num)]; norm_num)
      (by rw [abs_lt]; constructor <;> norm_num)]
    norm_num
  have hM : fmul (10493 / 4194304) 4433000 = 2839079 / 256 := by
    unfold fmul
    rw [roundF32_eval _ 13 11356316 (by norm_num)
      (by rw [abs_of_pos (by norm_num)]; norm_num)
      (by rw [abs_of_pos (by norm_num)]; norm_num)
      (by rw [abs_lt]; constructor <;> norm_num)]
    norm_num
  rw [hD, hM]
  unfold lrintf
  rw [roundHalfEven_eq_of_abs_lt _ 11090 (by rw [abs_lt]; constructor <;> norm_num)]
  rfl

theorem powfSeries_accurate_101325 :
    powfAccurateAt powfSeries (fdiv (intToFloat 101325) SEA_LEVEL_PRESSURE) BARO_EXPONENT
      (1 / 2 ^ 23) := by
  unfold powfAccurateAt
  rw [ratio_101325, powfSeries_one]
  simp

theorem documented_formula_100000 :
    (11090 : ℝ) ≤ (1 - ((100000 : ℝ) / 101325) ^ (190295 / 1000000 : ℝ)) * 4433000
      ∧ (1 - ((100000 : ℝ) / 101325) ^ (190295 / 1000000 : ℝ)) * 4433000 ≤ 11091 := by
  obtain ⟨b1, b2⟩ := rpow_documented_operands
  constructor <;> linarith

/-! ## Error of the single-precision altitude -/

theorem roundF32_error_max (q : ℚ) (hq : q ≠ 0) :
    |roundF32 q - q| ≤ (2 : ℚ) ^ (max (binade q) (-126) - 24) := by
  unfold roundF32
  rw [if_neg hq]
  simp only
  have hu : (0 : ℚ) < (2 : ℚ) ^ (max (binade q) (-126) - 23) := by positivity
  have h := roundHalfEven_sub_le (q / (2 : ℚ) ^ (max (binade q) (-126) - 23))
  have e1 : (roundHalfEven (q / (2 : ℚ) ^ (max (binade q) (-126) - 23)) : ℚ)
        * (2 : ℚ) ^ (max (binade q) (-126) - 23) - q
      = ((roundHalfEven (q / (2 : ℚ) ^ (max (binade q) (-126) - 23)) : ℚ)
          - q / (2 : ℚ) ^ (max (binade q) (-126) - 23))
        * (2 : ℚ) ^ (max (binade q) (-126) - 23) := by
    field_simp
  rw [e1, abs_mul, abs_of_pos hu]
  have e2 : (2 : ℚ) ^ (max (binade q) (-126) - 24)
      = 1 / 2 * (2 : ℚ) ^ (max (binade q) (-126) - 23) := by
    rw [show max (binade q) (-126) - 23 = (max (binade q) (-126) - 24) + 1 by ring,
      zpow_add_one₀ (by norm_num)]
    ring
  rw [e2]
  exact mul_le_mul_of_nonneg_right h hu.le

/-- Rounding error of a value of magnitude below `2^k`. -/
theorem roundF32_error_lt (q : ℚ) (k : ℤ) (hk : -125 ≤ k) (h : |q| < (2 : ℚ) ^ k) :
    |roundF32 q - q| ≤ (2 : ℚ) ^ (k - 25) := by
  by_cases h0 : q = 0
  · subst h0
    rw [roundF32_zero]
    simp only [sub_zero, abs_zero]
    positivity
  have hb := (binade_spec q h0).1
  have hlt : binade q < k := by
    by_contra hc
    push_neg at hc
    have : (2 : ℚ) ^ k ≤ (2 : ℚ) ^ binade q := zpow_le_zpow_right₀ (by norm_num) hc
    linarith
  refine le_trans (roundF32_error_max q h0) ?_
  apply zpow_le_zpow_right₀ (by norm_num)
  have : max (binade q) (-126) ≤ k - 1 := max_le (by omega) (by omega)
  omega

/-- Relative rounding error of a value in the normal range. -/
theorem roundF32_rel_error (q : ℚ) (hq : (2 : ℚ) ^ (-126 : ℤ) ≤ |q|) :
    |roundF32 q - q| ≤ |q| / 2 ^ 24 := by
  have hpos : 0 < |q| := lt_of_lt_of_le (by positivity) hq
  have h0 : q ≠ 0 := abs_pos.1 hpos
  obtain ⟨h1, h2⟩ := binade_spec q h0
  have he : -126 ≤ binade q := by
    by_contra hc
    push_neg at hc
    have : (2 : ℚ) ^ (binade q + 1) ≤ (2 : ℚ) ^ (-126 : ℤ) :=
      zpow_le_zpow_right₀ (by norm_num) (by omega)
    linarith
  refine le_trans (roundF32_error q (binade q) he h1 h2) ?_
  have e : (2 : ℚ) ^ (binade q - 24) = (2 : ℚ) ^ binade q / 2 ^ 24 := by
    rw [zpow_sub₀ (by norm_num)]
    norm_num
  rw [e]
  exact div_le_div_of_nonneg_right h1 (by positivity)

theorem abs_log_sub_log_le (r x η : ℝ) (hr : 0 < r) (hx : 0 < x) (hη0 : 0 ≤ η)
    (hη1 : η < 1) (h : |x - r| ≤ η * r) :
    |Real.log x - Real.log r| ≤ η / (1 - η) := by
  have h1η : 0 < 1 - η := by linarith
  rw [abs_le] at h
  have e : Real.log x - Real.log r = Real.log (x / r) := (Real.log_div hx.ne' hr.ne').symm
  have hy : 0 < x / r := div_pos hx hr
  have hyu : x / r ≤ 1 + η := by
    rw [div_le_iff₀ hr]
    linarith
  have hyl : 1 - η ≤ x / r := by
    rw [le_div_iff₀ hr]
    linarith
  have up := Real.log_le_sub_one_of_pos hy
  have lo := Real.one_sub_inv_le_log_of_pos hy
  have hη : η ≤ η / (1 - η) := by
    rw [le_div_iff₀ h1η]
    nlinarith
  have hinv : (x / r)⁻¹ ≤ (1 - η)⁻¹ := inv_anti₀ h1η hyl
  have e2 : 1 - (1 - η)⁻¹ = -(η / (1 - η)) := by
    field_simp
  rw [e, abs_le]
  constructor
  · linarith
  · linarith

theorem abs_exp_sub_exp_le (a b : ℝ) (h : |a - b| ≤ 1) :
    |Real.exp a - Real.exp b| ≤ Real.exp b * (|a - b| + (a - b) ^ 2) := by
  have e : Real.exp a - Real.exp b = Real.exp b * (Real.exp (a - b) - 1) := by
    rw [mul_sub, mul_one, ← Real.exp_add]
    ring_nf
  have hb := Real.abs_exp_sub_one_sub_id_le h
  have h1 : |Real.exp (a - b) - 1| ≤ |a - b| + (a - b) ^ 2 := by
    have : Real.exp (a - b) - 1 = (Real.exp (a - b) - 1 - (a - b)) + (a - b) := by ring
    rw [this]
    exact le_trans (abs_add _ _) (by linarith)
  rw [e, abs_mul, abs_of_pos (Real.exp_pos b)]
  exact mul_le_mul_of_nonneg_left h1 (Real.exp_pos b).le

/-- Range of the real power over the pressures 30000 .. 110000. -/
theorem rpow_pressure_range (r : ℝ) (h1 : 30000 / 101325 ≤ r) (h2 : r ≤ 110000 / 101325) :
    78 / 100 ≤ r ^ (190295 / 1000000 : ℝ) ∧ r ^ (190295 / 1000000 : ℝ) ≤ 10857 / 10000 := by
  have hr : 0 < r := lt_of_lt_of_le (by norm_num) h1
  rcases le_or_lt r 1 with hle | hgt
  · constructor
    · have s1 : r ^ (1 / 5 : ℝ) ≤ r ^ (190295 / 1000000 : ℝ) :=
        Real.rpow_le_rpow_of_exponent_ge hr hle (by norm_num)
      have s2 : ((78 / 100 : ℝ) ^ 5) ^ (1 / 5 : ℝ) ≤ r ^ (1 / 5 : ℝ) :=
        Real.rpow_le_rpow (by positivity) (le_trans (by norm_num) h1) (by norm_num)
      have s3 : ((78 / 100 : ℝ) ^ 5) ^ (1 / 5 : ℝ) = 78 / 100 := by
        have := Real.pow_rpow_inv_natCast (x := (78 / 100 : ℝ)) (n := 5) (by norm_num)
          (by norm_num)
        have e : (1 / 5 : ℝ) = ((5 : ℕ) : ℝ)⁻¹ := by norm_num
        rw [e]
        exact this
      linarith
    · exact le_trans (Real.rpow_le_one hr.le hle (by norm_num)) (by norm_num)
  · constructor
    · exact le_trans (by norm_num) (Real.one_le_rpow hgt.le (by norm_num))
    · have s1 : r ^ (190295 / 1000000 : ℝ) ≤ r ^ (1 : ℝ) :=
        Real.rpow_le_rpow_of_exponent_le hgt.le (by norm_num)
      rw [Real.rpow_one] at s1
      linarith

/-- Effect on the power of rounding the pressure ratio and the exponent to binary32. -/
theorem rpow_operand_error (r x : ℝ) (h1 : 30000 / 101325 ≤ r) (h2 : r ≤ 110000 / 101325)
    (hx : 0 < x) (hxr : |x - r| ≤ 1 / 2 ^ 24 * r) :
    |x ^ (12770481 / 67108864 : ℝ) - r ^ (190295 / 1000000 : ℝ)| ≤ 231 / 10000000000 := by
  have hr : 0 < r := lt_of_lt_of_le (by norm_num) h1
  have hlog := abs_log_sub_log_le r x (1 / 2 ^ 24) hr hx (by norm_num) (by norm_num) hxr
  have hlog' : |Real.log x - Real.log r| ≤ 6 / 100000000 := le_trans hlog (by norm_num)
  have hup : Real.log r ≤ 857 / 10000 := by
    have := Real.log_le_sub_one_of_pos hr
    linarith
  have hlo : -(2378 / 1000) ≤ Real.log r := by
    have := Real.one_sub_inv_le_log_of_pos hr
    have hinv : r⁻¹ ≤ (30000 / 101325 : ℝ)⁻¹ := inv_anti₀ (by norm_num) h1
    have : (30000 / 101325 : ℝ)⁻¹ ≤ 3378 / 1000 := by norm_num
    linarith
  have habs : |Real.log r| ≤ 2378 / 1000 := abs_le.2 ⟨hlo, by linarith⟩
  have hd : Real.log x * (12770481 / 67108864) - Real.log r * (190295 / 1000000)
      = (12770481 / 67108864) * (Real.log x - Real.log r)
        + (12770481 / 67108864 - 190295 / 1000000) * Real.log r := by ring
  have t1 : |(12770481 / 67108864 : ℝ) * (Real.log x - Real.log r)|
      ≤ 12770481 / 67108864 * (6 / 100000000) := by
    rw [abs_mul, abs_of_pos (by norm_num : (0 : ℝ) < 12770481 / 67108864)]
    exact mul_le_mul_of_nonneg_left hlog' (by norm_num)
  have t2 : |(12770481 / 67108864 - 190295 / 1000000 : ℝ) * Real.log r|
      ≤ 41 / 10000000000 * (2378 / 1000) := by
    rw [abs_mul]
    apply mul_le_mul _ habs (abs_nonneg _) (by norm_num)
    rw [abs_le]
    constructor <;> norm_num
  have hab : |Real.log x * (12770481 / 67108864) - Real.log r * (190295 / 1000000)|
      ≤ 212 / 10000000000 := by
    rw [hd]
    refine le_trans (abs_add _ _) ?_
    refine le_trans (add_le_add t1 t2) ?_
    norm_num
  have hexp := abs_exp_sub_exp_le (Real.log x * (12770481 / 67108864))
    (Real.log r * (190295 / 1000000)) (le_trans hab (by norm_num))
  rw [Real.rpow_def_of_pos hx, Real.rpow_def_of_pos hr]
  have hrc := (rpow_pressure_range r h1 h2).2
  rw [Real.rpow_def_of_pos hr] at hrc
  have hsq : (Real.log x * (12770481 / 67108864) - Real.log r * (190295 / 1000000)) ^ 2
      ≤ (212 / 10000000000) ^ 2 := by
    rw [← sq_abs]
    exact pow_le_pow_left₀ (abs_nonneg _) hab 2
  refine le_trans hexp ?_
  have hsum : |Real.log x * (12770481 / 67108864) - Real.log r * (190295 / 1000000)|
      + (Real.log x * (12770481 / 67108864) - Real.log r * (190295 / 1000000)) ^ 2
      ≤ 2121 / 100000000000 := by
    refine le_trans (add_le_add hab hsq) ?_
    norm_num
  refine le_trans (mul_le_mul hrc hsum (by positivity) (by norm_num)) ?_
  norm_num

/-- Over the pressures 30000 .. 110000 and for a `powf` accurate to `2^-24` at its operands,
the rounded single-precision altitude is less than 1 cm away from the real value of the
documented formula, and it fits `int32_t`. -/
theorem altitude_error_bound (powf : ℚ → ℚ → ℚ) (p : Int) (h1 : 30000 ≤ p) (h2 : p ≤ 110000)
    (hacc : powfAccurateAt powf (fdiv (intToFloat p) SEA_LEVEL_PRESSURE) BARO_EXPONENT
      (1 / 2 ^ 24)) :
    |((lrintf (pressureToAltitude powf (intToFloat p)) : ℤ) : ℝ)
        - (1 - ((p : ℝ) / 101325) ^ (190295 / 1000000 : ℝ)) * 4433000| < 1
      ∧ isInt32 (lrintf (pressureToAltitude powf (intToFloat p))) := by
  have hp : |p| < 16777216 := by
    rw [abs_lt]
    constructor <;> omega
  rw [pressureToAltitude_eq, intToFloat_small p hp, BARO_EXPONENT_eq]
  rw [intToFloat_small p hp, SEA_LEVEL_PRESSURE_eq, BARO_EXPONENT_eq] at hacc
  unfold powfAccurateAt at hacc
  unfold fdiv at hacc ⊢
  have hpq1 : (30000 : ℚ) ≤ p := by exact_mod_cast h1
  have hpq2 : (p : ℚ) ≤ 110000 := by exact_mod_cast h2
  have hq1 : (30000 / 101325 : ℚ) ≤ (p : ℚ) / 101325 := by
    rw [div_le_div_iff_of_pos_right (by norm_num)]
    exact hpq1
  have hq2 : (p : ℚ) / 101325 ≤ 110000 / 101325 := by
    rw [div_le_div_iff_of_pos_right (by norm_num)]
    exact hpq2
  have hq0 : (0 : ℚ) < (p : ℚ) / 101325 := lt_of_lt_of_le (by norm_num) hq1
  have hx := roundF32_rel_error ((p : ℚ) / 101325)
    (by rw [abs_of_pos hq0]; exact le_trans (by norm_num) hq1)
  rw [abs_of_pos hq0] at hx
  generalize roundF32 ((p : ℚ) / 101325) = x at hx hacc ⊢
  generalize powf x (12770481 / 67108864) = P at hacc ⊢
  have hpr1 : (30000 : ℝ) ≤ p := by exact_mod_cast h1
  have hpr2 : (p : ℝ) ≤ 110000 := by exact_mod_cast h2
  have hr1 : (30000 / 101325 : ℝ) ≤ (p : ℝ) / 101325 := by
    rw [div_le_div_iff_of_pos_right (by norm_num)]
    exact hpr1
  have hr2 : (p : ℝ) / 101325 ≤ 110000 / 101325 := by
    rw [div_le_div_iff_of_pos_right (by norm_num)]
    exact hpr2
  have hxR : |(x : ℝ) - (p : ℝ) / 101325| ≤ 1 / 2 ^ 24 * ((p : ℝ) / 101325) := by
    have := (Rat.cast_le (K := ℝ)).2 hx
    push_cast at this
    linarith
  have hx0 : (0 : ℝ) < x := by
    have := (abs_le.1 hxR).1
    have h0 : (0 : ℝ) < (p : ℝ) / 101325 := lt_of_lt_of_le (by norm_num) hr1
    nlinarith
  have hpow := rpow_operand_error ((p : ℝ) / 101325) x hr1 hr2 hx0 hxR
  obtain ⟨hlo, hhi⟩ := rpow_pressure_range ((p : ℝ) / 101325) hr1 hr2
  push_cast at hacc
  generalize ((p : ℝ) / 101325) ^ (190295 / 1000000 : ℝ) = R at hpow hlo hhi ⊢
  generalize (x : ℝ) ^ (12770481 / 67108864 : ℝ) = X at hpow hacc
  rw [abs_le] at hpow hacc
  have hP1 : (7799 / 10000 : ℚ) ≤ P := by
    have : (7799 / 10000 : ℝ) ≤ (P : ℝ) := by
      norm_num at hacc
      linarith [hacc.1, hpow.1]
    exact (Rat.cast_le (K := ℝ)).1 (by push_cast; exact this)
  have hP2 : P ≤ (10858 / 10000 : ℚ) := by
    have : (P : ℝ) ≤ (10858 / 10000 : ℝ) := by
      norm_num at hacc
      linarith [hacc.2, hpow.2]
    exact (Rat.cast_le (K := ℝ)).1 (by push_cast; exact this)
  unfold fmul fsub lrintf
  have hD := roundF32_error_lt (1 - P) (-2) (by norm_num)
    (by rw [abs_lt]; constructor <;> norm_num <;> linarith)
  have e27 : (2 : ℚ) ^ ((-2 : ℤ) - 25) = 1 / 134217728 := by norm_num
  rw [e27] at hD
  generalize roundF32 (1 - P) = D at hD ⊢
  have hDb := abs_le.1 hD
  have hM := roundF32_error_lt (D * 4433000) 20 (by norm_num)
    (by rw [abs_lt]; constructor <;> norm_num <;> linarith [hDb.1, hDb.2])
  have e5 : (2 : ℚ) ^ ((20 : ℤ) - 25) = 1 / 32 := by norm_num
  rw [e5] at hM
  generalize roundF32 (D * 4433000) = M at hM ⊢
  have ha := roundHalfEven_sub_le M
  have hDR : |(D : ℝ) - (1 - (P : ℝ))| ≤ 1 / 134217728 := by
    have := (Rat.cast_le (K := ℝ)).2 hD
    push_cast at this
    exact this
  have hMR : |(M : ℝ) - (D : ℝ) * 4433000| ≤ 1 / 32 := by
    have := (Rat.cast_le (K := ℝ)).2 hM
    push_cast at this
    exact this
  have haR : |((roundHalfEven M : ℤ) : ℝ) - (M : ℝ)| ≤ 1 / 2 := by
    have := (Rat.cast_le (K := ℝ)).2 ha
    push_cast at this
    exact this
  rw [abs_le] at hDR hMR haR
  norm_num at hacc
  have hmain : |((roundHalfEven M : ℤ) : ℝ) - (1 - R) * 4433000| < 1 := by
    rw [abs_lt]
    constructor <;> linarith [hDR.1, hDR.2, hMR.1, hMR.2, haR.1, haR.2, hacc.1, hacc.2,
      hpow.1, hpow.2]
  refine ⟨hmain, ?_, ?_⟩
  · have : (-2147483648 : ℝ) ≤ ((roundHalfEven M : ℤ) : ℝ) := by
      linarith [(abs_lt.1 hmain).1]
    exact_mod_cast this
  · have : ((roundHalfEven M : ℤ) : ℝ) ≤ (2147483647 : ℝ) := by
      linarith [(abs_lt.1 hmain).2]
    exact_mod_cast this

theorem powfAccurateAt_mono (powf : ℚ → ℚ → ℚ) (x y ε δ : ℚ) (h : ε ≤ δ)
    (hacc : powfAccurateAt powf x y ε) : powfAccurateAt powf x y δ := by
  unfold powfAccurateAt at hacc ⊢
  exact le_trans hacc (Rat.cast_le.2 h)

/-! ## Altitude at pressure 99992 -/

theorem ratio_99992 :
    fdiv (intToFloat 99992) SEA_LEVEL_PRESSURE = 4139125 / 4194304 := by
  rw [intToFloat_small 99992 (by norm_num), SEA_LEVEL_PRESSURE_eq]
  unfold fdiv
  rw [roundF32_eval _ (-1) 16556500 (by norm_num)
    (by rw [abs_of_pos (by norm_num)]; norm_num)
    (by rw [abs_of_pos (by norm_num)]; norm_num)
    (by rw [abs_lt]; constructor <;> norm_num)]
  norm_num

theorem rpow_float_operands_99992 :
    (99748309574 / 100000000000 : ℝ)
        ≤ (((4139125 / 4194304 : ℚ) : ℝ)) ^ (((12770481 / 67108864 : ℚ) : ℝ))
      ∧ (((4139125 / 4194304 : ℚ) : ℝ)) ^ (((12770481 / 67108864 : ℚ) : ℝ))
        ≤ (99748309591 / 100000000000 : ℝ) := by
  have hb : (((4139125 / 4194304 : ℚ) : ℝ)) = 1 - 55179 / 4194304 := by norm_num
  have hc : (((12770481 / 67108864 : ℚ) : ℝ)) = 12770481 / 67108864 := by norm_num
  rw [hb, hc]
  constructor
  · have h := rpow_one_sub_lower (55179 / 4194304) (12770481 / 67108864)
      (-252007698 / 100000000000) (by norm_num) (by norm_num) (by norm_num) (by norm_num)
      (by rw [abs_le]; constructor <;> norm_num)
    refine le_trans ?_ h
    rw [abs_of_neg (by norm_num)]
    norm_num
  · have h := rpow_one_sub_upper (55179 / 4194304) (12770481 / 67108864)
      (-252007682 / 100000000000) (by norm_num) (by norm_num) (by norm_num) (by norm_num)
      (by rw [abs_le]; constructor <;> norm_num)
    refine le_trans h ?_
    rw [abs_of_neg (by norm_num)]
    norm_num

theorem rpow_documented_operands_99992 :
    (99748309791 / 100000000000 : ℝ) ≤ ((99992 : ℝ) / 101325) ^ (190295 / 1000000 : ℝ)
      ∧ ((99992 : ℝ) / 101325) ^ (190295 / 1000000 : ℝ)
        ≤ (99748309810 / 100000000000 : ℝ) := by
  have hb : ((99992 : ℝ) / 101325) = 1 - 1333 / 101325 := by norm_num
  rw [hb]
  constructor
  · have h := rpow_one_sub_lower (1333 / 101325) (190295 / 1000000)
      (-252007480 / 100000000000) (by norm_num) (by norm_num) (by norm_num) (by norm_num)
      (by rw [abs_le]; constructor <;> norm_num)
    refine le_trans ?_ h
    rw [abs_of_neg (by norm_num)]
    norm_num
  · have h := rpow_one_sub_upper (1333 / 101325) (190295 / 1000000)
      (-252007463 / 100000000000) (by norm_num) (by norm_num) (by norm_num) (by norm_num)
      (by rw [abs_le]; constructor <;> norm_num)
    refine le_trans h ?_
    rw [abs_of_neg (by norm_num)]
    norm_num

theorem powfSeries_99992 :
    powfSeries (4139125 / 4194304) (12770481 / 67108864) = 16734989 / 16777216 := by
  unfold powfSeries logSeries expSeries
  simp only [Finset.sum_range_succ, Finset.sum_range_zero]
  norm_num [Nat.factorial]
  rw [roundF32_eval _ (-1) 16734989 (by norm_num)
    (by rw [abs_of_pos (by norm_num)]; norm_num)
    (by rw [abs_of_pos (by norm_num)]; norm_num)
    (by rw [abs_lt]; constructor <;> norm_num)]
  norm_num

theorem powfSeries_accurate_99992 :
    powfAccurateAt powfSeries (fdiv (intToFloat 99992) SEA_LEVEL_PRESSURE) BARO_EXPONENT
      (1 / 2 ^ 25) := by
  rw [ratio_99992, BARO_EXPONENT_eq]
  unfold powfAccurateAt
  rw [powfSeries_99992]
  obtain ⟨b1, b2⟩ := rpow_float_operands_99992
  rw [abs_le]
  push_cast
  constructor <;> linarith

/-- Pressure 99992 with the `powf` result `16734989 / 2^24` (the binary32 value nearest
to the real power of the operands): the single-precision expression is 11157.5302734375
and `lrintf` gives 11158. -/
theorem altitude_powfSeries_99992 :
    lrintf (pressureToAltitude powfSeries (intToFloat 99992)) = 11158 := by
  rw [pressureToAltitude_eq, ← SEA_LEVEL_PRESSURE_eq, ratio_99992, BARO_EXPONENT_eq,
    powfSeries_99992]
  have hD : fsub 1 (16734989 / 16777216) = 42227 / 16777216 := by
    unfold fsub
    rw [roundF32_eval _ (-9) 10810112 (by norm_num)
      (by rw [abs_of_pos (by norm_num)]; norm_num)
      (by rw [abs_of_pos (by norm_num)]; norm_num)
      (by rw [abs_lt]; constructor <;> norm_num)]
    norm_num
  have hM : fmul (42227 / 16777216) 4433000 = 11425311 / 1024 := by
    unfold fmul
    rw [roundF32_eval _ 13 11425311 (by norm_num)
      (by rw [abs_of_pos (by norm_num)]; norm_num)
      (by rw [abs_of_pos (by norm_num)]; norm_num)
      (by rw [abs_lt]; constructor <;> norm_num)]
    norm_num
  rw [hD, hM]
  unfold lrintf
  apply roundHalfEven_eq_of_abs_lt
  rw [abs_lt]
  constructor <;> norm_num

/-- Pressure 99992: the real value of the documented formula lies strictly between
11157 and 11157.5, so that its nearest integer is 11157. -/
theorem documented_formula_99992 :
    (11157 : ℝ) < (1 - ((99992 : ℝ) / 101325) ^ (190295 / 1000000 : ℝ)) * 4433000
      ∧ (1 - ((99992 : ℝ) / 101325) ^ (190295 / 1000000 : ℝ)) * 4433000 < 11157 + 1 / 2 := by
  obtain ⟨b1, b2⟩ := rpow_documented_operands_99992
  constructor <;> linarith

/-! ## Calibration counter: lemmas -/

section Calibration

variable {H : Type}

theorem decUInt16_pos (c : Nat) (h0 : c ≠ 0) (hb : c < 65536) : decUInt16 c = c - 1 := by
  unfold decUInt16
  omega

theorem baroCalculateAltitude_calibrating (powf : ℚ → ℚ → ℚ) (st : BaroState H)
    (h : st.calibratingB ≠ 0) :
    baroCalculateAltitude powf st
      = ({ performBaroCalibrationCycle powf st with BaroAlt := 0 }, 0) := by
  simp [baroCalculateAltitude, isBaroCalibrationComplete, h]

theorem calibratingB_step (powf : ℚ → ℚ → ℚ) (st : BaroState H)
    (h : st.calibratingB ≠ 0) :
    (baroCalculateAltitude powf st).1.calibratingB = decUInt16 st.calibratingB := by
  rw [baroCalculateAltitude_calibrating powf st h]
  rfl

theorem calibratingB_after (powf : ℚ → ℚ → ℚ) (k : Nat) :
    ∀ st : BaroState H, k ≤ st.calibratingB → st.calibratingB < 65536 →
      (baroCalculateAltitudeN powf k st).calibratingB = st.calibratingB - k := by
  induction k with
  | zero => intro st _ _; rfl
  | succ k ih =>
    intro st hk hb
    have h0 : st.calibratingB ≠ 0 := by omega
    have hs := calibratingB_step powf st h0
    rw [decUInt16_pos _ h0 hb] at hs
    show (baroCalculateAltitudeN powf k (baroCalculateAltitude powf st).1).calibratingB = _
    rw [ih _ (by omega) (by omega), hs]
    omega

end Calibration

/-! ## Median filter: lemmas -/

theorem isMedianOf_three (a b c m : Int) :
    isMedianOf [a, b, c] m ↔ m = median3 a b c := by
  unfold isMedianOf median3
  simp only [List.mem_cons, List.mem_singleton, List.not_mem_nil, or_false,
    List.countP_cons, List.countP_nil, decide_eq_true_eq]
  constructor
  · rintro ⟨_, h2, h3⟩
    split_ifs at h2 h3 <;> omega
  · intro h
    subst h
    refine ⟨?_, ?_, ?_⟩
    · omega
    · split_ifs <;> omega
    · split_ifs <;> omega

theorem quickMedianFilter3_isMedianOf (v : List Int) (hv : v.length = 3) :
    isMedianOf v (quickMedianFilter3 v) := by
  match v, hv with
  | [a, b, c], _ =>
    rw [isMedianOf_three]
    simp only [quickMedianFilter3, median3]
    omega

theorem qmf_three (qmf : List Int → Int)
    (hq : ∀ v : List Int, v.length = 3 → isMedianOf v (qmf v)) (a b c : Int) :
    qmf [a, b, c] = median3 a b c :=
  (isMedianOf_three a b c _).1 (hq [a, b, c] rfl)

theorem filterWf_init : filterWf medianFilterInit := by
  simp [filterWf, medianFilterInit]

theorem filterWf_apply (qmf : List Int → Int) (f : medianFilter_t) (s : Int)
    (h : filterWf f) : filterWf (applyBarometerMedianFilter qmf f s).1 := by
  obtain ⟨hl, hi⟩ := h
  rcases hi with hi | hi | hi <;>
    simp [filterWf, applyBarometerMedianFilter, PRESSURE_SAMPLES_MEDIAN, hi, hl]

theorem filterWf_pushSamples (qmf : List Int → Int) (xs : List Int) :
    ∀ f : medianFilter_t, filterWf f → filterWf (pushSamples qmf f xs).1 := by
  induction xs with
  | nil => intro f h; exact h
  | cons s rest ih =>
    intro f h
    exact ih _ (filterWf_apply qmf f s h)

theorem pushSamples_append (qmf : List Int → Int) (xs ys : List Int) :
    ∀ f : medianFilter_t,
      pushSamples qmf f (xs ++ ys)
        = ((pushSamples qmf (pushSamples qmf f xs).1 ys).1,
           (pushSamples qmf f xs).2 ++ (pushSamples qmf (pushSamples qmf f xs).1 ys).2) := by
  induction xs with
  | nil => intro f; rfl
  | cons s rest ih =>
    intro f
    show ((pushSamples qmf (applyBarometerMedianFilter qmf f s).1 (rest ++ ys)).1,
        (applyBarometerMedianFilter qmf f s).2
          :: (pushSamples qmf (applyBarometerMedianFilter qmf f s).1 (rest ++ ys)).2) = _
    rw [ih]
    rfl

theorem ready_stays_set (qmf : List Int → Int) (f : medianFilter_t) (s : Int)
    (h : f.medianFilterReady = true) :
    (applyBarometerMedianFilter qmf f s).1.medianFilterReady = true := by
  simp [applyBarometerMedianFilter, h]

/-- Three pushes into a filter whose cursor is 0. -/
theorem push_three_at0 (qmf : List Int → Int) (x y z : Int) (ready : Bool) (a b c : Int) :
    pushSamples qmf ⟨[x, y, z], 0, ready⟩ [a, b, c]
      = (⟨[a, b, c], 0, true⟩, [if ready then qmf [a, y, z] else a,
          if ready then qmf [a, b, z] else b, qmf [a, b, c]]) := by
  simp [pushSamples, applyBarometerMedianFilter, PRESSURE_SAMPLES_MEDIAN]

/-- Three pushes into a filter whose cursor is 1. -/
theorem push_three_at1 (qmf : List Int → Int) (x y z : Int) (ready : Bool) (a b c : Int) :
    pushSamples qmf ⟨[x, y, z], 1, ready⟩ [a, b, c]
      = (⟨[c, a, b], 1, true⟩, [if ready then qmf [x, a, z] else a,
          qmf [x, a, b], qmf [c, a, b]]) := by
  simp [pushSamples, applyBarometerMedianFilter, PRESSURE_SAMPLES_MEDIAN]

/-- Three pushes into a filter whose cursor is 2. -/
theorem push_three_at2 (qmf : List Int → Int) (x y z : Int) (ready : Bool) (a b c : Int) :
    pushSamples qmf ⟨[x, y, z], 2, ready⟩ [a, b, c]
      = (⟨[b, c, a], 2, true⟩, [qmf [x, y, a], qmf [b, y, a], qmf [b, c, a]]) := by
  simp [pushSamples, applyBarometerMedianFilter, PRESSURE_SAMPLES_MEDIAN]

/-- Three pushes into any well-formed filter leave exactly those three samples in
the buffer (rotated by the cursor), the ready flag set, and the third call returns
their median. -/
theorem push_three (qmf : List Int → Int)
    (hq : ∀ v : List Int, v.length = 3 → isMedianOf v (qmf v))
    (f : medianFilter_t) (hf : filterWf f) (a b c : Int) :
    (pushSamples qmf f [a, b, c]).2.getLast? = some (median3 a b c)
      ∧ (pushSamples qmf f [a, b, c]).1.barometerFilterSamples.Perm [a, b, c]
      ∧ (pushSamples qmf f [a, b, c]).1.medianFilterReady = true := by
  obtain ⟨samples, idx, ready⟩ := f
  obtain ⟨hl, hi⟩ := hf
  simp only at hl hi
  match samples, hl with
  | [x, y, z], _ =>
    rcases hi with hi | hi | hi <;> subst hi
    · rw [push_three_at0]
      exact ⟨by simp [qmf_three qmf hq], List.Perm.refl _, rfl⟩
    · have e : median3 c a b = median3 a b c := by unfold median3; omega
      rw [push_three_at1]
      exact ⟨by simp [qmf_three qmf hq, e],
        @List.perm_append_comm _ [c] [a, b], rfl⟩
    · have e : median3 b c a = median3 a b c := by unfold median3; omega
      rw [push_three_at2]
      exact ⟨by simp [qmf_three qmf hq, e],
        @List.perm_append_comm _ [b, c] [a], rfl⟩

theorem pushSamples_length (qmf : List Int → Int) (xs : List Int) :
    ∀ f : medianFilter_t, (pushSamples qmf f xs).2.length = xs.length := by
  induction xs with
  | nil => intro f; rfl
  | cons s rest ih =>
    intro f
    show ((applyBarometerMedianFilter qmf f s).2
      :: (pushSamples qmf (applyBarometerMedianFilter qmf f s).1 rest).2).length = _
    simp [ih]

/-! ## Acquisition state machine: lemmas -/

section Acquisition

variable {H : Type}

theorem baroUpdate_samples (qmf : List Int → Int) (dev : baroDev_t H) (st : BaroState H)
    (h : st.state = barometerState_e.BAROMETER_NEEDS_SAMPLES) :
    (baroUpdate qmf dev st).1.state = barometerState_e.BAROMETER_NEEDS_CALCULATION
      ∧ (baroUpdate qmf dev st).2 = dev.up_delay
      ∧ calculateCount (baroUpdate qmf dev st).1.devLog = calculateCount st.devLog := by
  simp [baroUpdate, h, calculateCount]

theorem baroUpdate_calculation (qmf : List Int → Int) (dev : baroDev_t H) (st : BaroState H)
    (h : st.state = barometerState_e.BAROMETER_NEEDS_CALCULATION) :
    (baroUpdate qmf dev st).1.state = barometerState_e.BAROMETER_NEEDS_SAMPLES
      ∧ (baroUpdate qmf dev st).2 = dev.ut_delay
      ∧ calculateCount (baroUpdate qmf dev st).1.devLog = calculateCount st.devLog + 1 := by
  unfold baroUpdate
  simp only [h]
  split_ifs <;> simp [calculateCount]

theorem baroUpdateN_succ (qmf : List Int → Int) (dev : baroDev_t H) (n : Nat) :
    ∀ st : BaroState H,
      baroUpdateN qmf dev (n + 1) st = (baroUpdate qmf dev (baroUpdateN qmf dev n st)).1 := by
  induction n with
  | zero => intro st; rfl
  | succ n ih =>
    intro st
    show baroUpdateN qmf dev (n + 1) (baroUpdate qmf dev st).1 = _
    rw [ih]
    rfl

theorem baroUpdateN_even (qmf : List Int → Int) (dev : baroDev_t H) (st : BaroState H)
    (h : st.state = barometerState_e.BAROMETER_NEEDS_SAMPLES) (k : Nat) :
    (baroUpdateN qmf dev (2 * k) st).state = barometerState_e.BAROMETER_NEEDS_SAMPLES
      ∧ calculateCount (baroUpdateN qmf dev (2 * k) st).devLog
          = calculateCount st.devLog + k := by
  induction k with
  | zero => exact ⟨h, rfl⟩
  | succ k ih =>
    have e : 2 * (k + 1) = (2 * k + 1) + 1 := by ring
    rw [e, baroUpdateN_succ, baroUpdateN_succ]
    obtain ⟨h1, _, h3⟩ := baroUpdate_samples qmf dev _ ih.1
    obtain ⟨g1, _, g3⟩ := baroUpdate_calculation qmf dev _ h1
    exact ⟨g1, by rw [g3, h3, ih.2]; ring⟩

theorem baroUpdate_delay_cases (qmf : List Int → Int) (dev : baroDev_t H)
    (st : BaroState H) :
    (baroUpdate qmf dev st).2 = dev.up_delay ∨ (baroUpdate qmf dev st).2 = dev.ut_delay := by
  cases hs : st.state with
  | BAROMETER_NEEDS_SAMPLES => exact Or.inl (baroUpdate_samples qmf dev st hs).2.1
  | BAROMETER_NEEDS_CALCULATION => exact Or.inr (baroUpdate_calculation qmf dev st hs).2.1

end Acquisition

section AcquisitionCycle

variable {H : Type}

theorem baroUpdate_twice (qmf : List Int → Int) (dev : baroDev_t H) (st : BaroState H)
    (h : st.state = barometerState_e.BAROMETER_NEEDS_SAMPLES) :
    (baroUpdate qmf dev (baroUpdate qmf dev st).1).1 = acquisitionCycle qmf dev st := by
  obtain ⟨hw, devLog, baroTemperature, BaroAlt, calibratingB, baroPressure,
    baroGroundAltitude, baroGroundPressure, cfg, baroReady, filter, state, hilActive,
    hilBaroAlt⟩ := st
  simp only at h
  subst h
  cases hf : cfg.use_median_filtering <;> simp [baroUpdate, acquisitionCycle, hf]

theorem baroUpdateN_even_cycles (qmf : List Int → Int) (dev : baroDev_t H) (st : BaroState H)
    (h : st.state = barometerState_e.BAROMETER_NEEDS_SAMPLES) (k : Nat) :
    baroUpdateN qmf dev (2 * k) st = (acquisitionCycle qmf dev)^[k] st := by
  induction k with
  | zero => rfl
  | succ k ih =>
    have e : 2 * (k + 1) = (2 * k + 1) + 1 := by ring
    rw [e, baroUpdateN_succ, baroUpdateN_succ, Function.iterate_succ_apply', ← ih]
    exact baroUpdate_twice qmf dev _ (baroUpdateN_even qmf dev st h k).1

end AcquisitionCycle

/-! ## Ground-pressure accumulator: lemmas -/

section Accumulator

variable {H : Type}

theorem tdiv8_of_nonneg (g : Int) (h : 0 ≤ g) : Int.tdiv g 8 = g / 8 :=
  Int.tdiv_eq_ediv h (by norm_num)

theorem tdiv8_of_neg (g : Int) (h : g < 0) : Int.tdiv g 8 = -((-g) / 8) := by
  have e : g = -(-g) := by ring
  rw [e, Int.neg_tdiv, tdiv8_of_nonneg (-g) (by omega)]
  simp

/-- The decay step `g - g / 8` of an `int32_t` value stays in the `int32_t` range. -/
theorem decay_isInt32 (g : Int) (hg : isInt32 g) : isInt32 (g - Int.tdiv g 8) := by
  unfold isInt32 at *
  rcases le_or_lt 0 g with h | h
  · rw [tdiv8_of_nonneg g h]; omega
  · rw [tdiv8_of_neg g h]; omega

theorem cycle_groundPressure (powf : ℚ → ℚ → ℚ) (st : BaroState H)
    (hg : isInt32 st.baroGroundPressure)
    (hs : isInt32 (st.baroGroundPressure - Int.tdiv st.baroGroundPressure 8 + st.baroPressure)) :
    (performBaroCalibrationCycle powf st).baroGroundPressure
      = st.baroGroundPressure - Int.tdiv st.baroGroundPressure 8 + st.baroPressure := by
  have e : (performBaroCalibrationCycle powf st).baroGroundPressure
      = wrapInt32 (wrapInt32 (st.baroGroundPressure - Int.tdiv st.baroGroundPressure 8)
          + st.baroPressure) := by
    unfold performBaroCalibrationCycle
    rfl
  rw [e, wrapInt32_of_isInt32 _ (decay_isInt32 _ hg), wrapInt32_of_isInt32 _ hs]

theorem cycle_groundAltitude (powf : ℚ → ℚ → ℚ) (st : BaroState H) :
    (performBaroCalibrationCycle powf st).baroGroundAltitude
      = wrapInt32 (floatToInt (pressureToAltitude powf
          (intToFloat (Int.tdiv (performBaroCalibrationCycle powf st).baroGroundPressure 8)))) := by
  unfold performBaroCalibrationCycle
  rfl

/-- One cycle with the accumulator in `[0, 8P]` and the pressure in `[0, P]`. -/
theorem cycle_bounded (powf : ℚ → ℚ → ℚ) (st : BaroState H) (P : Int)
    (hP : 8 * P ≤ 2147483647)
    (hg0 : 0 ≤ st.baroGroundPressure) (hg1 : st.baroGroundPressure ≤ 8 * P)
    (hp0 : 0 ≤ st.baroPressure) (hp1 : st.baroPressure ≤ P) :
    (performBaroCalibrationCycle powf st).baroGroundPressure
        = st.baroGroundPressure - st.baroGroundPressure / 8 + st.baroPressure
      ∧ 0 ≤ (performBaroCalibrationCycle powf st).baroGroundPressure
      ∧ (performBaroCalibrationCycle powf st).baroGroundPressure ≤ 8 * P := by
  have h := cycle_groundPressure powf st (by unfold isInt32; omega)
    (by rw [tdiv8_of_nonneg _ hg0]; unfold isInt32; omega)
  rw [tdiv8_of_nonneg _ hg0] at h
  rw [h]
  omega

theorem performBaroCalibrationCycleN_zero (powf : ℚ → ℚ → ℚ) (st : BaroState H) :
    performBaroCalibrationCycleN powf 0 st = st := by
  rw [performBaroCalibrationCycleN]

theorem performBaroCalibrationCycleN_succ (powf : ℚ → ℚ → ℚ) (n : Nat) (st : BaroState H) :
    performBaroCalibrationCycleN powf (n + 1) st
      = performBaroCalibrationCycle powf (performBaroCalibrationCycleN powf n st) := by
  rw [performBaroCalibrationCycleN]

/-- The iteration can also be unfolded at its first cycle. -/
theorem performBaroCalibrationCycleN_first (powf : ℚ → ℚ → ℚ) (n : Nat) (st : BaroState H) :
    performBaroCalibrationCycleN powf (n + 1) st
      = performBaroCalibrationCycleN powf n (performBaroCalibrationCycle powf st) := by
  induction n with
  | zero =>
    rw [performBaroCalibrationCycleN_succ, performBaroCalibrationCycleN_zero,
      performBaroCalibrationCycleN_zero]
  | succ n ih =>
    rw [performBaroCalibrationCycleN_succ, ih, performBaroCalibrationCycleN_succ]

theorem cycle_baroPressure (powf : ℚ → ℚ → ℚ) (st : BaroState H) :
    (performBaroCalibrationCycle powf st).baroPressure = st.baroPressure := by
  unfold performBaroCalibrationCycle
  rfl

theorem cycleN_baroPressure (powf : ℚ → ℚ → ℚ) (n : Nat) (st : BaroState H) :
    (performBaroCalibrationCycleN powf n st).baroPressure = st.baroPressure := by
  induction n with
  | zero => rw [performBaroCalibrationCycleN_zero]
  | succ n ih => rw [performBaroCalibrationCycleN_succ, cycle_baroPressure, ih]

/-- From a zero accumulator under a constant pressure `p`: the accumulator stays in
`[0, 8p]` and its distance to `8p` is multiplied by `7/8` (rounded down) each cycle. -/
theorem cycleN_distance (powf : ℚ → ℚ → ℚ) (st : BaroState H)
    (hg : st.baroGroundPressure = 0) (hp0 : 0 ≤ st.baroPressure)
    (hp8 : 8 * st.baroPressure ≤ 2147483647) (n : Nat) :
    0 ≤ (performBaroCalibrationCycleN powf n st).baroGroundPressure
      ∧ (performBaroCalibrationCycleN powf n st).baroGroundPressure ≤ 8 * st.baroPressure
      ∧ 8 * st.baroPressure - (performBaroCalibrationCycleN powf (n + 1) st).baroGroundPressure
          = 7 * (8 * st.baroPressure
              - (performBaroCalibrationCycleN powf n st).baroGroundPressure) / 8 := by
  have key : ∀ s : BaroState H, s.baroPressure = st.baroPressure →
      0 ≤ s.baroGroundPressure → s.baroGroundPressure ≤ 8 * st.baroPressure →
      0 ≤ (performBaroCalibrationCycle powf s).baroGroundPressure
        ∧ (performBaroCalibrationCycle powf s).baroGroundPressure ≤ 8 * st.baroPressure
        ∧ 8 * st.baroPressure - (performBaroCalibrationCycle powf s).baroGroundPressure
            = 7 * (8 * st.baroPressure - s.baroGroundPressure) / 8 := by
    intro s hs h0 h1
    have hb := cycle_bounded powf s st.baroPressure hp8 h0 h1 (by rw [hs]; exact hp0)
      (by rw [hs])
    rw [hb.1, hs]
    omega
  have inv : ∀ m : Nat, 0 ≤ (performBaroCalibrationCycleN powf m st).baroGroundPressure
      ∧ (performBaroCalibrationCycleN powf m st).baroGroundPressure ≤ 8 * st.baroPressure := by
    intro m
    induction m with
    | zero => rw [performBaroCalibrationCycleN_zero, hg]; omega
    | succ m ih =>
      rw [performBaroCalibrationCycleN_succ]
      have := key _ (cycleN_baroPressure powf m st) ih.1 ih.2
      exact ⟨this.1, this.2.1⟩
  refine ⟨(inv n).1, (inv n).2, ?_⟩
  rw [performBaroCalibrationCycleN_succ]
  exact (key _ (cycleN_baroPressure powf n st) (inv n).1 (inv n).2).2.2

end Accumulator

section AccumulatorRun

variable {H : Type}

/-- Facts about the accumulator sequence from zero under a constant pressure. -/
theorem groundPressureAfter_step (powf : ℚ → ℚ → ℚ) (st : BaroState H)
    (hg : st.baroGroundPressure = 0) (hp0 : 0 ≤ st.baroPressure)
    (hp8 : 8 * st.baroPressure ≤ 2147483647) (n : Nat) :
    0 ≤ groundPressureAfter powf st n
      ∧ groundPressureAfter powf st n ≤ 8 * st.baroPressure
      ∧ 8 * st.baroPressure - groundPressureAfter powf st (n + 1)
          = 7 * (8 * st.baroPressure - groundPressureAfter powf st n) / 8 :=
  cycleN_distance powf st hg hp0 hp8 n

theorem groundPressureAfter_zero (powf : ℚ → ℚ → ℚ) (st : BaroState H) :
    groundPressureAfter powf st 0 = st.baroGroundPressure := by
  unfold groundPressureAfter
  rw [performBaroCalibrationCycleN_zero]

theorem groundPressureAfter_reaches (powf : ℚ → ℚ → ℚ) (st : BaroState H)
    (hg : st.baroGroundPressure = 0) (hp0 : 0 ≤ st.baroPressure)
    (hp8 : 8 * st.baroPressure ≤ 2147483647) (n : Nat) :
    groundPressureAfter powf st n = 8 * st.baroPressure
      ∨ (n : Int) ≤ groundPressureAfter powf st n := by
  induction n with
  | zero =>
    right
    rw [groundPressureAfter_zero, hg]
    rfl
  | succ n ih =>
    obtain ⟨h0, h1, h2⟩ := groundPressureAfter_step powf st hg hp0 hp8 n
    push_cast
    omega

theorem groundPressureAfter_final (powf : ℚ → ℚ → ℚ) (st : BaroState H)
    (hg : st.baroGroundPressure = 0) (hp0 : 0 ≤ st.baroPressure)
    (hp8 : 8 * st.baroPressure ≤ 2147483647) (n : Nat)
    (hn : 8 * st.baroPressure ≤ (n : Int)) :
    groundPressureAfter powf st n = 8 * st.baroPressure := by
  obtain ⟨_, h1, _⟩ := groundPressureAfter_step powf st hg hp0 hp8 n
  rcases groundPressureAfter_reaches powf st hg hp0 hp8 n with h | h
  · exact h
  · omega

theorem groundPressureAfter_geometric (powf : ℚ → ℚ → ℚ) (st : BaroState H)
    (hg : st.baroGroundPressure = 0) (hp0 : 0 ≤ st.baroPressure)
    (hp8 : 8 * st.baroPressure ≤ 2147483647) (n : Nat) :
    (8 * st.baroPressure - groundPressureAfter powf st n) * 8 ^ n
      ≤ 8 * st.baroPressure * 7 ^ n := by
  induction n with
  | zero => rw [groundPressureAfter_zero, hg]; simp
  | succ n ih =>
    obtain ⟨h0, h1, h2⟩ := groundPressureAfter_step powf st hg hp0 hp8 n
    rw [h2, pow_succ, pow_succ]
    have h8 : (0 : Int) ≤ 8 ^ n := by positivity
    have hd : 7 * (8 * st.baroPressure - groundPressureAfter powf st n) / 8 * 8
        ≤ 7 * (8 * st.baroPressure - groundPressureAfter powf st n) := by omega
    calc 7 * (8 * st.baroPressure - groundPressureAfter powf st n) / 8 * (8 ^ n * 8)
        = (7 * (8 * st.baroPressure - groundPressureAfter powf st n) / 8 * 8) * 8 ^ n := by ring
      _ ≤ (7 * (8 * st.baroPressure - groundPressureAfter powf st n)) * 8 ^ n :=
          mul_le_mul_of_nonneg_right hd h8
      _ = 7 * ((8 * st.baroPressure - groundPressureAfter powf st n) * 8 ^ n) := by ring
      _ ≤ 7 * (8 * st.baroPressure * 7 ^ n) := by omega
      _ = 8 * st.baroPressure * (7 ^ n * 7) := by ring

theorem groundPressureAfter_of_geometric (powf : ℚ → ℚ → ℚ) (st : BaroState H)
    (hg : st.baroGroundPressure = 0) (hp0 : 0 ≤ st.baroPressure)
    (hp8 : 8 * st.baroPressure ≤ 2147483647) (n : Nat)
    (hn : 8 * st.baroPressure * 7 ^ n < 8 ^ n) :
    groundPressureAfter powf st n = 8 * st.baroPressure := by
  obtain ⟨_, h1, _⟩ := groundPressureAfter_step powf st hg hp0 hp8 n
  have hgeo := groundPressureAfter_geometric powf st hg hp0 hp8 n
  by_contra hne
  have hd : 1 ≤ 8 * st.baroPressure - groundPressureAfter powf st n := by omega
  have h8 : (0 : Int) ≤ 8 ^ n := by positivity
  have := mul_le_mul_of_nonneg_right hd h8
  linarith

theorem groundPressureAfter_eight (powf : ℚ → ℚ → ℚ) (st : BaroState H)
    (hg : st.baroGroundPressure = 0) (hp2 : 2 ≤ st.baroPressure)
    (hp8 : 8 * st.baroPressure ≤ 2147483647) :
    groundPressureAfter powf st 8 + 4 ≤ 8 * st.baroPressure := by
  have s0 := (groundPressureAfter_step powf st hg (by omega) hp8 0).2.2
  have s1 := (groundPressureAfter_step powf st hg (by omega) hp8 1).2.2
  have s2 := (groundPressureAfter_step powf st hg (by omega) hp8 2).2.2
  have s3 := (groundPressureAfter_step powf st hg (by omega) hp8 3).2.2
  have s4 := (groundPressureAfter_step powf st hg (by omega) hp8 4).2.2
  have s5 := (groundPressureAfter_step powf st hg (by omega) hp8 5).2.2
  have s6 := (groundPressureAfter_step powf st hg (by omega) hp8 6).2.2
  have s7 := (groundPressureAfter_step powf st hg (by omega) hp8 7).2.2
  rw [groundPressureAfter_zero, hg] at s0
  norm_num at s0 s1 s2 s3 s4 s5 s6 s7
  omega

end AccumulatorRun

/-! ## Median filter: spikes and cursor -/

theorem median3_two_left (v y : Int) : median3 v v y = v := by unfold median3; omega

theorem median3_two_outer (v y : Int) : median3 v y v = v := by unfold median3; omega

theorem median3_two_right (v y : Int) : median3 y v v = v := by unfold median3; omega

theorem apply_at0 (qmf : List Int → Int) (a b c y : Int) (r : Bool) :
    applyBarometerMedianFilter qmf ⟨[a, b, c], 0, r⟩ y
      = (⟨[y, b, c], 1, r⟩, if r then qmf [y, b, c] else y) := by
  simp [applyBarometerMedianFilter, PRESSURE_SAMPLES_MEDIAN]

theorem apply_at1 (qmf : List Int → Int) (a b c y : Int) (r : Bool) :
    applyBarometerMedianFilter qmf ⟨[a, b, c], 1, r⟩ y
      = (⟨[a, y, c], 2, r⟩, if r then qmf [a, y, c] else y) := by
  simp [applyBarometerMedianFilter, PRESSURE_SAMPLES_MEDIAN]

theorem apply_at2 (qmf : List Int → Int) (a b c y : Int) (r : Bool) :
    applyBarometerMedianFilter qmf ⟨[a, b, c], 2, r⟩ y
      = (⟨[a, b, y], 0, true⟩, qmf [a, b, y]) := by
  simp [applyBarometerMedianFilter, PRESSURE_SAMPLES_MEDIAN]

theorem othersHold_push (qmf : List Int → Int)
    (hq : ∀ l : List Int, l.length = 3 → isMedianOf l (qmf l))
    (v y : Int) (f : medianFilter_t) (h : othersHold v f) :
    (applyBarometerMedianFilter qmf f y).2 = v
      ∧ twoHold v (applyBarometerMedianFilter qmf f y).1
      ∧ (y = v → othersHold v (applyBarometerMedianFilter qmf f y).1) := by
  rcases h with ⟨a, hf⟩ | ⟨b, hf⟩ | ⟨c, r, hf⟩ <;> subst hf
  · rw [apply_at0]
    refine ⟨by simp [qmf_three qmf hq, median3_two_right],
      ⟨y, 1, Or.inr (Or.inl rfl), Or.inl rfl⟩, ?_⟩
    intro hy
    subst hy
    exact Or.inr (Or.inl ⟨y, rfl⟩)
  · rw [apply_at1]
    refine ⟨by simp [qmf_three qmf hq, median3_two_outer],
      ⟨y, 2, Or.inr (Or.inr rfl), Or.inr (Or.inl rfl)⟩, ?_⟩
    intro hy
    subst hy
    exact Or.inr (Or.inr ⟨y, true, rfl⟩)
  · rw [apply_at2]
    refine ⟨by simp [qmf_three qmf hq, median3_two_left],
      ⟨y, 0, Or.inl rfl, Or.inr (Or.inr rfl)⟩, ?_⟩
    intro hy
    subst hy
    exact Or.inl ⟨y, rfl⟩

theorem twoHold_push (qmf : List Int → Int)
    (hq : ∀ l : List Int, l.length = 3 → isMedianOf l (qmf l))
    (v : Int) (f : medianFilter_t) (h : twoHold v f) :
    (applyBarometerMedianFilter qmf f v).2 = v
      ∧ twoHold v (applyBarometerMedianFilter qmf f v).1 := by
  obtain ⟨y, i, hi, hf⟩ := h
  rcases hi with hi | hi | hi <;> subst hi <;> rcases hf with hf | hf | hf <;> subst hf
  · rw [apply_at0]
    exact ⟨by simp [qmf_three qmf hq, median3_two_left], v, 1, by simp, Or.inl rfl⟩
  · rw [apply_at0]
    exact ⟨by simp [qmf_three qmf hq, median3_two_outer], y, 1, by simp, Or.inr (Or.inl rfl)⟩
  · rw [apply_at0]
    exact ⟨by simp [qmf_three qmf hq, median3_two_left], y, 1, by simp, Or.inr (Or.inr rfl)⟩
  · rw [apply_at1]
    exact ⟨by simp [qmf_three qmf hq, median3_two_right], y, 2, by simp, Or.inl rfl⟩
  · rw [apply_at1]
    exact ⟨by simp [qmf_three qmf hq, median3_two_left], v, 2, by simp, Or.inl rfl⟩
  · rw [apply_at1]
    exact ⟨by simp [qmf_three qmf hq, median3_two_left], y, 2, by simp, Or.inr (Or.inr rfl)⟩
  · rw [apply_at2]
    exact ⟨by simp [qmf_three qmf hq, median3_two_right], y, 0, by simp, Or.inl rfl⟩
  · rw [apply_at2]
    exact ⟨by simp [qmf_three qmf hq, median3_two_outer], y, 0, by simp, Or.inr (Or.inl rfl)⟩
  · rw [apply_at2]
    exact ⟨by simp [qmf_three qmf hq, median3_two_left], v, 0, by simp, Or.inl rfl⟩

theorem othersHold_pushSamples (qmf : List Int → Int)
    (hq : ∀ l : List Int, l.length = 3 → isMedianOf l (qmf l)) (v : Int) (k : Nat) :
    ∀ f : medianFilter_t, othersHold v f →
      (pushSamples qmf f (List.replicate k v)).2 = List.replicate k v
        ∧ othersHold v (pushSamples qmf f (List.replicate k v)).1 := by
  induction k with
  | zero => intro f h; exact ⟨rfl, h⟩
  | succ k ih =>
    intro f h
    obtain ⟨h1, _, h3⟩ := othersHold_push qmf hq v v f h
    obtain ⟨i1, i2⟩ := ih _ (h3 rfl)
    show (applyBarometerMedianFilter qmf f v).2
        :: (pushSamples qmf (applyBarometerMedianFilter qmf f v).1 (List.replicate k v)).2
        = List.replicate (k + 1) v ∧ _
    rw [h1, i1]
    exact ⟨rfl, i2⟩

theorem twoHold_pushSamples (qmf : List Int → Int)
    (hq : ∀ l : List Int, l.length = 3 → isMedianOf l (qmf l)) (v : Int) (k : Nat) :
    ∀ f : medianFilter_t, twoHold v f →
      (pushSamples qmf f (List.replicate k v)).2 = List.replicate k v := by
  induction k with
  | zero => intro f _; rfl
  | succ k ih =>
    intro f h
    obtain ⟨h1, h2⟩ := twoHold_push qmf hq v f h
    show (applyBarometerMedianFilter qmf f v).2
        :: (pushSamples qmf (applyBarometerMedianFilter qmf f v).1 (List.replicate k v)).2
        = List.replicate (k + 1) v
    rw [h1, ih _ h2]
    rfl

theorem two_pushes_init (qmf : List Int → Int) (v : Int) :
    (pushSamples qmf medianFilterInit [v, v]).2 = [v, v]
      ∧ othersHold v (pushSamples qmf medianFilterInit [v, v]).1 := by
  have e : pushSamples qmf medianFilterInit [v, v] = (⟨[v, v, 0], 2, false⟩, [v, v]) := by
    simp [pushSamples, applyBarometerMedianFilter, medianFilterInit, PRESSURE_SAMPLES_MEDIAN]
  rw [e]
  exact ⟨rfl, Or.inr (Or.inr ⟨0, false, rfl⟩)⟩

theorem cursor_after_pushes (qmf : List Int → Int) (xs : List Int) :
    ∀ f : medianFilter_t, filterWf f →
      (pushSamples qmf f xs).1.currentFilterSampleIndex
        = (f.currentFilterSampleIndex + (xs.length : Int)) % 3 := by
  induction xs with
  | nil =>
    intro f h
    obtain ⟨_, hi⟩ := h
    show f.currentFilterSampleIndex = _
    simp only [List.length_nil]
    omega
  | cons s rest ih =>
    intro f h
    show (pushSamples qmf (applyBarometerMedianFilter qmf f s).1 rest).1.currentFilterSampleIndex
      = _
    rw [ih _ (filterWf_apply qmf f s h)]
    obtain ⟨_, hi⟩ := h
    rcases hi with hi | hi | hi <;>
      simp [applyBarometerMedianFilter, PRESSURE_SAMPLES_MEDIAN, hi] <;> omega

/-! ## Calls after calibration: lemmas -/

section AfterCalibration

variable {H : Type}

theorem baroUpdate_calibration_frame (qmf : List Int → Int) (dev : baroDev_t H)
    (st : BaroState H) :
    (baroUpdate qmf dev st).1.calibratingB = st.calibratingB
      ∧ (baroUpdate qmf dev st).1.baroGroundPressure = st.baroGroundPressure
      ∧ (baroUpdate qmf dev st).1.baroGroundAltitude = st.baroGroundAltitude := by
  unfold baroUpdate
  cases st.state with
  | BAROMETER_NEEDS_SAMPLES => exact ⟨rfl, rfl, rfl⟩
  | BAROMETER_NEEDS_CALCULATION =>
    simp only
    split_ifs <;> exact ⟨rfl, rfl, rfl⟩

theorem baroCalculateAltitude_calibration_frame (powf : ℚ → ℚ → ℚ) (st : BaroState H)
    (h : st.calibratingB = 0) :
    (baroCalculateAltitude powf st).1.calibratingB = 0
      ∧ (baroCalculateAltitude powf st).1.baroGroundPressure = st.baroGroundPressure
      ∧ (baroCalculateAltitude powf st).1.baroGroundAltitude = st.baroGroundAltitude := by
  unfold baroCalculateAltitude
  simp only [isBaroCalibrationComplete, h]
  split_ifs <;> simp_all

theorem runCalls_calibration_frame (qmf : List Int → Int) (dev : baroDev_t H)
    (powf : ℚ → ℚ → ℚ) (calls : List baroCall) :
    ∀ st : BaroState H, st.calibratingB = 0 →
      (runCalls qmf dev powf calls st).calibratingB = 0
        ∧ (runCalls qmf dev powf calls st).baroGroundPressure = st.baroGroundPressure
        ∧ (runCalls qmf dev powf calls st).baroGroundAltitude = st.baroGroundAltitude := by
  induction calls with
  | nil => intro st h; exact ⟨h, rfl, rfl⟩
  | cons c cs ih =>
    intro st h
    cases c with
    | update =>
      obtain ⟨h1, h2, h3⟩ := baroUpdate_calibration_frame qmf dev st
      obtain ⟨i1, i2, i3⟩ := ih (baroUpdate qmf dev st).1 (by rw [h1]; exact h)
      exact ⟨i1, by rw [← h2]; exact i2, by rw [← h3]; exact i3⟩
    | calculateAltitude =>
      obtain ⟨h1, h2, h3⟩ := baroCalculateAltitude_calibration_frame powf st h
      obtain ⟨i1, i2, i3⟩ := ih (baroCalculateAltitude powf st).1 h1
      exact ⟨i1, by rw [← h2]; exact i2, by rw [← h3]; exact i3⟩

theorem calibrateWithSamples_nil (powf : ℚ → ℚ → ℚ) (st : BaroState H) :
    calibrateWithSamples powf [] st = st := by
  unfold calibrateWithSamples
  rw [List.foldl_nil]

theorem calibrateWithSamples_cons (powf : ℚ → ℚ → ℚ) (p : Int) (ps : List Int)
    (st : BaroState H) :
    calibrateWithSamples powf (p :: ps) st
      = calibrateWithSamples powf ps
          (performBaroCalibrationCycle powf { st with baroPressure := p }) := by
  unfold calibrateWithSamples
  rw [List.foldl_cons]

theorem calibrateWithSamples_bounded (powf : ℚ → ℚ → ℚ) (P : Int)
    (hP : 8 * P ≤ 2147483647) (ps : List Int) :
    ∀ st : BaroState H, 0 ≤ st.baroGroundPressure → st.baroGroundPressure ≤ 8 * P →
      (∀ p ∈ ps, 0 ≤ p ∧ p ≤ P) →
      0 ≤ (calibrateWithSamples powf ps st).baroGroundPressure
        ∧ (calibrateWithSamples powf ps st).baroGroundPressure ≤ 8 * P := by
  induction ps with
  | nil => intro st h0 h1 _; rw [calibrateWithSamples_nil]; exact ⟨h0, h1⟩
  | cons p ps ih =>
    intro st h0 h1 hps
    have hp := hps p (List.mem_cons_self p ps)
    have hb := cycle_bounded powf { st with baroPressure := p } P hP h0 h1 hp.1 hp.2
    rw [calibrateWithSamples_cons]
    exact ih _ hb.2.1 hb.2.2 (fun q hq => hps q (List.mem_cons_of_mem p hq))

end AfterCalibration

/-! ## Ground altitude at pressure 100013 -/

theorem rpow_float_operands_100013 :
    (99752295527 / 100000000000 : ℝ)
        ≤ (((16559977 / 16777216 : ℚ) : ℝ)) ^ (((12770481 / 67108864 : ℚ) : ℝ))
      ∧ (((16559977 / 16777216 : ℚ) : ℝ)) ^ (((12770481 / 67108864 : ℚ) : ℝ))
        ≤ (99752295544 / 100000000000 : ℝ) := by
  have hb : (((16559977 / 16777216 : ℚ) : ℝ)) = 1 - 217239 / 16777216 := by norm_num
  have hc : (((12770481 / 67108864 : ℚ) : ℝ)) = 12770481 / 67108864 := by norm_num
  rw [hb, hc]
  constructor
  · have h := rpow_one_sub_lower (217239 / 16777216) (12770481 / 67108864)
      (-248011767 / 100000000000) (by norm_num) (by norm_num) (by norm_num) (by norm_num)
      (by rw [abs_le]; constructor <;> norm_num)
    refine le_trans ?_ h
    rw [abs_of_neg (by norm_num)]
    norm_num
  · have h := rpow_one_sub_upper (217239 / 16777216) (12770481 / 67108864)
      (-248011752 / 100000000000) (by norm_num) (by norm_num) (by norm_num) (by norm_num)
      (by rw [abs_le]; constructor <;> norm_num)
    refine le_trans h ?_
    rw [abs_of_neg (by norm_num)]
    norm_num

theorem ratio_100013 :
    fdiv (intToFloat 100013) SEA_LEVEL_PRESSURE = 16559977 / 16777216 := by
  rw [intToFloat_small 100013 (by norm_num), SEA_LEVEL_PRESSURE_eq]
  unfold fdiv
  rw [roundF32_eval _ (-1) 16559977 (by norm_num)
    (by rw [abs_of_pos (by norm_num)]; norm_num)
    (by rw [abs_of_pos (by norm_num)]; norm_num)
    (by rw [abs_lt]; constructor <;> norm_num)]
  norm_num

theorem powf_enclosure_100013 (powf : ℚ → ℚ → ℚ)
    (hacc : powfAccurateAt powf (16559977 / 16777216) (12770481 / 67108864) (1 / 2 ^ 25)) :
    99752295527 / 100000000000 - 1 / 2 ^ 25
        ≤ powf (16559977 / 16777216) (12770481 / 67108864)
      ∧ powf (16559977 / 16777216) (12770481 / 67108864)
          ≤ 99752295544 / 100000000000 + 1 / 2 ^ 25 := by
  unfold powfAccurateAt at hacc
  obtain ⟨b1, b2⟩ := rpow_float_operands_100013
  rw [abs_le] at hacc
  constructor
  · have : (((99752295527 / 100000000000 - 1 / 2 ^ 25 : ℚ)) : ℝ)
        ≤ ((powf (16559977 / 16777216) (12770481 / 67108864) : ℚ) : ℝ) := by
      push_cast
      push_cast at hacc
      linarith [hacc.1]
    exact_mod_cast this
  · have : ((powf (16559977 / 16777216) (12770481 / 67108864) : ℚ) : ℝ)
        ≤ (((99752295544 / 100000000000 + 1 / 2 ^ 25 : ℚ)) : ℝ) := by
      push_cast
      push_cast at hacc
      linarith [hacc.2]
    exact_mod_cast this

/-- Pressure 100013: for a `powf` result inside the enclosure of the real power
widened by `2^-25`, the altitude expression lies strictly between 10980.5 and 10981,
so that `lrintf` gives 10981 and the conversion to an integer gives 10980. -/
theorem altitude_of_ratio_100013 (P : ℚ)
    (hlo : 99752295527 / 100000000000 - 1 / 2 ^ 25 ≤ P)
    (hhi : P ≤ 99752295544 / 100000000000 + 1 / 2 ^ 25) :
    lrintf (fmul (fsub 1 P) 4433000) = 10981
      ∧ floatToInt (fmul (fsub 1 P) 4433000) = 10980 := by
  have hq0 : (0 : ℚ) < 1 - P := by linarith
  have hD := roundF32_error (1 - P) (-9) (by norm_num)
    (by rw [abs_of_pos hq0]; norm_num; linarith)
    (by rw [abs_of_pos hq0]; norm_num; linarith)
  rw [abs_le] at hD
  norm_num at hD
  have hm0 : (0 : ℚ) < fsub 1 P * 4433000 := by
    unfold fsub
    nlinarith [hD.1, hD.2]
  have hM := roundF32_error (fsub 1 P * 4433000) 13 (by norm_num)
    (by rw [abs_of_pos hm0]; unfold fsub; norm_num; linarith [hD.1, hD.2])
    (by rw [abs_of_pos hm0]; unfold fsub; norm_num; linarith [hD.1, hD.2])
  rw [abs_le] at hM
  norm_num at hM
  have hlow : (10980 : ℚ) + 1 / 2 < fmul (fsub 1 P) 4433000 := by
    unfold fmul fsub at *
    linarith [hD.1, hD.2, hM.1, hM.2]
  have hupp : fmul (fsub 1 P) 4433000 < 10981 := by
    unfold fmul fsub at *
    linarith [hD.1, hD.2, hM.1, hM.2]
  constructor
  · unfold lrintf
    apply roundHalfEven_eq_of_abs_lt
    rw [abs_lt]
    push_cast
    constructor <;> linarith
  · unfold floatToInt
    rw [if_pos (by linarith), Int.floor_eq_iff]
    push_cast
    constructor <;> linarith

theorem powfSeries_100013 :
    powfSeries (16559977 / 16777216) (12770481 / 67108864) = 8367829 / 8388608 := by
  unfold powfSeries logSeries expSeries
  simp only [Finset.sum_range_succ, Finset.sum_range_zero]
  norm_num [Nat.factorial]
  rw [roundF32_eval _ (-1) 16735658 (by norm_num)
    (by rw [abs_of_pos (by norm_num)]; norm_num)
    (by rw [abs_of_pos (by norm_num)]; norm_num)
    (by rw [abs_lt]; constructor <;> norm_num)]
  norm_num

theorem powfSeries_accurate_100013 :
    powfAccurateAt powfSeries (fdiv (intToFloat 100013) SEA_LEVEL_PRESSURE) BARO_EXPONENT
      (1 / 2 ^ 25) := by
  rw [ratio_100013, BARO_EXPONENT_eq]
  unfold powfAccurateAt
  rw [powfSeries_100013]
  obtain ⟨b1, b2⟩ := rpow_float_operands_100013
  rw [abs_le]
  push_cast
  constructor <;> linarith

/-- The ground altitude stored by a calibration cycle ending with the accumulator
at `8 * 100013`, and the altitude then computed at the pressure 100013. -/
theorem altitude_at_ground_100013 (powf : ℚ → ℚ → ℚ)
    (hacc : powfAccurateAt powf (fdiv (intToFloat 100013) SEA_LEVEL_PRESSURE) BARO_EXPONENT
      (1 / 2 ^ 25)) :
    lrintf (pressureToAltitude powf (intToFloat 100013)) = 10981
      ∧ floatToInt (pressureToAltitude powf (intToFloat 100013)) = 10980 := by
  rw [ratio_100013, BARO_EXPONENT_eq] at hacc
  obtain ⟨b1, b2⟩ := powf_enclosure_100013 powf hacc
  rw [pressureToAltitude_eq, ← SEA_LEVEL_PRESSURE_eq, ratio_100013, BARO_EXPONENT_eq]
  exact altitude_of_ratio_100013 _ b1 b2

/-! ## Calibration run followed by an altitude computation -/

section CalibrationRun

variable {H : Type}

theorem cycle_groundPressure_wrap (powf : ℚ → ℚ → ℚ) (st : BaroState H) :
    (performBaroCalibrationCycle powf st).baroGroundPressure
      = wrapInt32 (wrapInt32 (st.baroGroundPressure - Int.tdiv st.baroGroundPressure 8)
          + st.baroPressure) := by
  unfold performBaroCalibrationCycle
  rfl

theorem cycle_congr (powf : ℚ → ℚ → ℚ) (s t : BaroState H)
    (hG : s.baroGroundPressure = t.baroGroundPressure) (hp : s.baroPressure = t.baroPressure) :
    (performBaroCalibrationCycle powf s).baroGroundPressure
        = (performBaroCalibrationCycle powf t).baroGroundPressure
      ∧ (performBaroCalibrationCycle powf s).baroPressure
        = (performBaroCalibrationCycle powf t).baroPressure
      ∧ (performBaroCalibrationCycle powf s).baroGroundAltitude
        = (performBaroCalibrationCycle powf t).baroGroundAltitude := by
  have e : (performBaroCalibrationCycle powf s).baroGroundPressure
      = (performBaroCalibrationCycle powf t).baroGroundPressure := by
    rw [cycle_groundPressure_wrap, cycle_groundPressure_wrap, hG, hp]
  refine ⟨e, ?_, ?_⟩
  · rw [cycle_baroPressure, cycle_baroPressure, hp]
  · rw [cycle_groundAltitude, cycle_groundAltitude, e]

theorem baroCalculateAltitude_hilActive (powf : ℚ → ℚ → ℚ) (st : BaroState H) :
    (baroCalculateAltitude powf st).1.hilActive = st.hilActive := by
  unfold baroCalculateAltitude
  split_ifs
  · unfold performBaroCalibrationCycle
    rfl
  · rfl
  · rfl

theorem baroCalculateAltitudeN_zero (powf : ℚ → ℚ → ℚ) (st : BaroState H) :
    baroCalculateAltitudeN powf 0 st = st := by
  rw [baroCalculateAltitudeN]

theorem baroCalculateAltitudeN_first (powf : ℚ → ℚ → ℚ) (n : Nat) (st : BaroState H) :
    baroCalculateAltitudeN powf (n + 1) st
      = baroCalculateAltitudeN powf n (baroCalculateAltitude powf st).1 := by
  rw [baroCalculateAltitudeN]

theorem baroCalculateAltitudeN_hilActive (powf : ℚ → ℚ → ℚ) (n : Nat) :
    ∀ st : BaroState H, (baroCalculateAltitudeN powf n st).hilActive = st.hilActive := by
  induction n with
  | zero => intro st; rw [baroCalculateAltitudeN_zero]
  | succ n ih =>
    intro st
    rw [baroCalculateAltitudeN_first, ih, baroCalculateAltitude_hilActive]

theorem calibrating_baroPressure (powf : ℚ → ℚ → ℚ) (s : BaroState H)
    (h0 : s.calibratingB ≠ 0) :
    (baroCalculateAltitude powf s).1.baroPressure = s.baroPressure := by
  rw [baroCalculateAltitude_calibrating powf s h0]
  unfold performBaroCalibrationCycle
  rfl

/-- While the counter lasts, `n` calls of `baroCalculateAltitude` leave the same
accumulator, pressure and ground altitude as `n` calibration cycles. -/
theorem calibrating_run_agrees (powf : ℚ → ℚ → ℚ) (n : Nat) :
    ∀ s t : BaroState H, s.baroGroundPressure = t.baroGroundPressure →
      s.baroPressure = t.baroPressure → s.baroGroundAltitude = t.baroGroundAltitude →
      n ≤ s.calibratingB → s.calibratingB < 65536 →
      (baroCalculateAltitudeN powf n s).baroGroundPressure
          = (performBaroCalibrationCycleN powf n t).baroGroundPressure
        ∧ (baroCalculateAltitudeN powf n s).baroPressure
          = (performBaroCalibrationCycleN powf n t).baroPressure
        ∧ (baroCalculateAltitudeN powf n s).baroGroundAltitude
          = (performBaroCalibrationCycleN powf n t).baroGroundAltitude := by
  induction n with
  | zero =>
    intro s t hG hp ha _ _
    rw [baroCalculateAltitudeN_zero, performBaroCalibrationCycleN_zero]
    exact ⟨hG, hp, ha⟩
  | succ n ih =>
    intro s t hG hp ha hn hb
    have h0 : s.calibratingB ≠ 0 := by omega
    have hc := calibratingB_step powf s h0
    rw [decUInt16_pos _ h0 hb] at hc
    obtain ⟨c1, c2, c3⟩ := cycle_congr powf s t hG hp
    have hs := baroCalculateAltitude_calibrating powf s h0
    have f1 : (baroCalculateAltitude powf s).1.baroGroundPressure
        = (performBaroCalibrationCycle powf s).baroGroundPressure := by rw [hs]
    have f2 : (baroCalculateAltitude powf s).1.baroPressure
        = (performBaroCalibrationCycle powf s).baroPressure := by
      rw [calibrating_baroPressure powf s h0, cycle_baroPressure]
    have f3 : (baroCalculateAltitude powf s).1.baroGroundAltitude
        = (performBaroCalibrationCycle powf s).baroGroundAltitude := by rw [hs]
    rw [baroCalculateAltitudeN_first, performBaroCalibrationCycleN_first]
    exact ih _ _ (by rw [f1, c1]) (by rw [f2, c2]) (by rw [f3, c3]) (by omega) (by omega)

/-- From a zero accumulator, 200 calibration calls at the constant pressure 100013
followed by one more call of `baroCalculateAltitude` at that pressure. -/
theorem calibration_then_altitude_100013 (powf : ℚ → ℚ → ℚ) (st : BaroState H)
    (hp : st.baroPressure = 100013) (hg : st.baroGroundPressure = 0)
    (hh : st.hilActive = false)
    (hacc : powfAccurateAt powf (fdiv (intToFloat 100013) SEA_LEVEL_PRESSURE) BARO_EXPONENT
      (1 / 2 ^ 25)) :
    isBaroCalibrationComplete
        (baroCalculateAltitudeN powf 200 (baroSetCalibrationCycles st 200)) = true
      ∧ (baroCalculateAltitudeN powf 200 (baroSetCalibrationCycles st 200)).baroGroundPressure
          = 800104
      ∧ (baroCalculateAltitudeN powf 200 (baroSetCalibrationCycles st 200)).baroPressure
          = 100013
      ∧ (baroCalculateAltitudeN powf 200 (baroSetCalibrationCycles st 200)).baroGroundAltitude
          = 10980
      ∧ (baroCalculateAltitude powf
          (baroCalculateAltitudeN powf 200 (baroSetCalibrationCycles st 200))).2 = 1 := by
  have s0G : (baroSetCalibrationCycles st 200).baroGroundPressure = 0 := hg
  have s0p : (baroSetCalibrationCycles st 200).baroPressure = 100013 := hp
  have s0c : (baroSetCalibrationCycles st 200).calibratingB = 200 := rfl
  have s0h : (baroSetCalibrationCycles st 200).hilActive = false := hh
  obtain ⟨a1, a2, a3⟩ := calibrating_run_agrees powf 200 (baroSetCalibrationCycles st 200)
    (baroSetCalibrationCycles st 200) rfl rfl rfl (by rw [s0c]) (by rw [s0c]; norm_num)
  have hG : (performBaroCalibrationCycleN powf 200
      (baroSetCalibrationCycles st 200)).baroGroundPressure = 800104 := by
    have := groundPressureAfter_of_geometric powf (baroSetCalibrationCycles st 200) s0G
      (by rw [s0p]; norm_num) (by rw [s0p]; norm_num) 200 (by rw [s0p]; norm_num)
    unfold groundPressureAfter at this
    rw [this, s0p]
    norm_num
  have hP : (performBaroCalibrationCycleN powf 200
      (baroSetCalibrationCycles st 200)).baroPressure = 100013 := by
    rw [cycleN_baroPressure, s0p]
  obtain ⟨v1, v2⟩ := altitude_at_ground_100013 powf hacc
  have hA : (performBaroCalibrationCycleN powf 200
      (baroSetCalibrationCycles st 200)).baroGroundAltitude = 10980 := by
    have e := cycle_groundAltitude powf
      (performBaroCalibrationCycleN powf 199 (baroSetCalibrationCycles st 200))
    rw [← performBaroCalibrationCycleN_succ] at e
    rw [e, hG]
    have t8 : Int.tdiv 800104 8 = 100013 := by decide
    rw [t8, v2]
    decide
  have hc := calibratingB_after powf 200 (baroSetCalibrationCycles st 200)
    (by rw [s0c]) (by rw [s0c]; norm_num)
  rw [s0c] at hc
  have hcomplete : isBaroCalibrationComplete
      (baroCalculateAltitudeN powf 200 (baroSetCalibrationCycles st 200)) = true := by
    simp [isBaroCalibrationComplete, hc]
  have hhil : (baroCalculateAltitudeN powf 200 (baroSetCalibrationCycles st 200)).hilActive
      = false := by
    rw [baroCalculateAltitudeN_hilActive, s0h]
  refine ⟨hcomplete, by rw [a1, hG], by rw [a2, hP], by rw [a3, hA], ?_⟩
  rw [(baroCalculateAltitude_calibrated powf _ hcomplete hhil).1, a2, hP, a3, hA, v1]
  decide

end CalibrationRun

/-! ## Claims -/

/-- C1: for every cycle count `n` in `0..65535` and every prior state,
`baroSetCalibrationCycles(n)` followed by exactly `n` calls of `baroCalculateAltitude`
makes `isBaroCalibrationComplete()` true, and for `n ≥ 1` it is still false after
only `n - 1` calls. -/
theorem calibration_completes_after_exactly_n_cycles {H : Type} (powf : ℚ → ℚ → ℚ)
    (st : BaroState H) (n : Nat) (hn : n ≤ 65535) :
    isBaroCalibrationComplete
        (baroCalculateAltitudeN powf n (baroSetCalibrationCycles st n)) = true
      ∧ (1 ≤ n →
          isBaroCalibrationComplete
            (baroCalculateAltitudeN powf (n - 1) (baroSetCalibrationCycles st n)) = false) := by
  have hc : (baroSetCalibrationCycles st n).calibratingB = n := by
    show n % 65536 = n
    omega
  constructor
  · have := calibratingB_after powf n (baroSetCalibrationCycles st n) (by omega) (by omega)
    simp [isBaroCalibrationComplete, this, hc]
  · intro h1
    have := calibratingB_after powf (n - 1) (baroSetCalibrationCycles st n) (by omega) (by omega)
    simp only [isBaroCalibrationComplete, this, hc]
    simp
    omega

/-- Witness for C1: three cycles requested on the power-on state. -/
theorem calibration_completes_after_exactly_n_cycles_witness :
    3 ≤ 65535
      ∧ isBaroCalibrationComplete
          (baroCalculateAltitudeN powfSeries 3
            (baroSetCalibrationCycles (initialState () ⟨true⟩) 3)) = true
      ∧ (1 ≤ 3 →
          isBaroCalibrationComplete
            (baroCalculateAltitudeN powfSeries (3 - 1)
              (baroSetCalibrationCycles (initialState () ⟨true⟩) 3)) = false) :=
  ⟨by decide,
    calibration_completes_after_exactly_n_cycles powfSeries (initialState () ⟨true⟩) 3
      (by decide)⟩

/-- C2: in every state with an incomplete calibration (counter non-zero), whatever
the pressure and the hardware-in-the-loop inputs, `baroCalculateAltitude()` returns 0
and stores 0 in `baro.BaroAlt`. -/
theorem altitude_zero_while_calibrating {H : Type} (powf : ℚ → ℚ → ℚ)
    (st : BaroState H) (h : isBaroCalibrationComplete st = false) :
    (baroCalculateAltitude powf st).2 = 0
      ∧ (baroCalculateAltitude powf st).1.BaroAlt = 0 := by
  have h0 : st.calibratingB ≠ 0 := by
    simpa [isBaroCalibrationComplete] using h
  rw [baroCalculateAltitude_calibrating powf st h0]
  exact ⟨rfl, rfl⟩

/-- Witness for C2: one cycle outstanding with the hardware-in-the-loop override on. -/
theorem altitude_zero_while_calibrating_witness :
    (baroCalculateAltitude powfSeries
        { initialState () ⟨true⟩ with
            calibratingB := 1, baroPressure := 100000, hilActive := true,
            hilBaroAlt := 777 }).2 = 0
      ∧ (baroCalculateAltitude powfSeries
        { initialState () ⟨true⟩ with
            calibratingB := 1, baroPressure := 100000, hilActive := true,
            hilBaroAlt := 777 }).1.BaroAlt = 0 :=
  altitude_zero_while_calibrating powfSeries _ (by decide)

/-- C3: starting from a freshly initialised median filter, three values `a`, `b`,
`c` pushed in that order through `applyBarometerMedianFilter` return `a`, then `b`,
then the median of the three (the value that is neither the minimum nor the maximum,
the shared value under ties), `quickMedianFilter3` being taken to return a median of
its three-element argument. -/
theorem first_three_pushes (qmf : List Int → Int)
    (hq : ∀ v : List Int, v.length = 3 → isMedianOf v (qmf v)) (a b c : Int) :
    (applyBarometerMedianFilter qmf medianFilterInit a).2 = a
      ∧ (applyBarometerMedianFilter qmf
          (applyBarometerMedianFilter qmf medianFilterInit a).1 b).2 = b
      ∧ (applyBarometerMedianFilter qmf
          (applyBarometerMedianFilter qmf
            (applyBarometerMedianFilter qmf medianFilterInit a).1 b).1 c).2
          = a + b + c - min a (min b c) - max a (max b c)
      ∧ isMedianOf [a, b, c]
          (applyBarometerMedianFilter qmf
            (applyBarometerMedianFilter qmf
              (applyBarometerMedianFilter qmf medianFilterInit a).1 b).1 c).2 := by
  have h3 : (applyBarometerMedianFilter qmf
          (applyBarometerMedianFilter qmf
            (applyBarometerMedianFilter qmf medianFilterInit a).1 b).1 c).2
          = median3 a b c := by
    simp [applyBarometerMedianFilter, medianFilterInit, PRESSURE_SAMPLES_MEDIAN,
      qmf_three qmf hq]
  refine ⟨?_, ?_, ?_, ?_⟩
  · simp [applyBarometerMedianFilter, medianFilterInit, PRESSURE_SAMPLES_MEDIAN]
  · simp [applyBarometerMedianFilter, medianFilterInit, PRESSURE_SAMPLES_MEDIAN]
  · rw [h3]; rfl
  · rw [h3]; exact (isMedianOf_three a b c _).2 rfl

/-- Witness for C3: the samples 5, 9, 1 through the sorting-network median. -/
theorem first_three_pushes_witness :
    (∀ v : List Int, v.length = 3 → isMedianOf v (quickMedianFilter3 v))
      ∧ (applyBarometerMedianFilter quickMedianFilter3 medianFilterInit 5).2 = 5
      ∧ (applyBarometerMedianFilter quickMedianFilter3
          (applyBarometerMedianFilter quickMedianFilter3 medianFilterInit 5).1 9).2 = 9
      ∧ (applyBarometerMedianFilter quickMedianFilter3
          (applyBarometerMedianFilter quickMedianFilter3
            (applyBarometerMedianFilter quickMedianFilter3 medianFilterInit 5).1 9).1 1).2
          = 5 + 9 + 1 - min 5 (min 9 1) - max 5 (max 9 1)
      ∧ isMedianOf [5, 9, 1]
          (applyBarometerMedianFilter quickMedianFilter3
            (applyBarometerMedianFilter quickMedianFilter3
              (applyBarometerMedianFilter quickMedianFilter3 medianFilterInit 5).1 9).1 1).2 :=
  ⟨quickMedianFilter3_isMedianOf,
    first_three_pushes quickMedianFilter3 quickMedianFilter3_isMedianOf 5 9 1⟩

/-- C4: for every sequence of `n ≥ 3` pushes into a freshly initialised filter
(any earlier samples `pre` followed by `a`, `b`, `c`), the `n`-th call of
`applyBarometerMedianFilter` returns the median of the three most recent samples;
the buffer then holds exactly these three samples, the ready flag is set, and a set
ready flag is never cleared by a call. -/
theorem nth_push_returns_median_of_last_three (qmf : List Int → Int)
    (hq : ∀ v : List Int, v.length = 3 → isMedianOf v (qmf v))
    (pre : List Int) (a b c : Int) :
    (pushSamples qmf medianFilterInit (pre ++ [a, b, c])).2.length = pre.length + 3
      ∧ (pushSamples qmf medianFilterInit (pre ++ [a, b, c])).2.getLast?
          = some (a + b + c - min a (min b c) - max a (max b c))
      ∧ (pushSamples qmf medianFilterInit
          (pre ++ [a, b, c])).1.barometerFilterSamples.Perm [a, b, c]
      ∧ (pushSamples qmf medianFilterInit (pre ++ [a, b, c])).1.medianFilterReady = true
      ∧ (∀ (f : medianFilter_t) (s : Int), f.medianFilterReady = true →
          (applyBarometerMedianFilter qmf f s).1.medianFilterReady = true) := by
  have hw := filterWf_pushSamples qmf pre medianFilterInit filterWf_init
  obtain ⟨h1, h2, h3⟩ := push_three qmf hq _ hw a b c
  refine ⟨?_, ?_, ?_, ?_, ready_stays_set qmf⟩
  · rw [pushSamples_length]; simp
  · rw [pushSamples_append]
    show ((pushSamples qmf medianFilterInit pre).2
      ++ (pushSamples qmf (pushSamples qmf medianFilterInit pre).1 [a, b, c]).2).getLast? = _
    have hne : (pushSamples qmf (pushSamples qmf medianFilterInit pre).1 [a, b, c]).2 ≠ [] := by
      intro h0
      rw [h0] at h1
      simp at h1
    rw [List.getLast?_append_of_ne_nil _ hne, h1]
    rfl
  · rw [pushSamples_append]; exact h2
  · rw [pushSamples_append]; exact h3

/-- Witness for C4: five pushes, the last three being 7, 100, 3. -/
theorem nth_push_returns_median_of_last_three_witness :
    (∀ v : List Int, v.length = 3 → isMedianOf v (quickMedianFilter3 v))
      ∧ (pushSamples quickMedianFilter3 medianFilterInit ([5, 9] ++ [7, 100, 3])).2.getLast?
          = some (7 + 100 + 3 - min 7 (min 100 3) - max 7 (max 100 3)) :=
  ⟨quickMedianFilter3_isMedianOf,
    (nth_push_returns_median_of_last_three quickMedianFilter3
      quickMedianFilter3_isMedianOf [5, 9] 7 100 3).2.1⟩

/-- C5: starting in phase `BAROMETER_NEEDS_SAMPLES`, after `2k` calls of
`baroUpdate()` the phase is again `BAROMETER_NEEDS_SAMPLES` and the shared pressure
and temperature have been updated exactly `k` times: the whole state is the one
reached by `k` full acquisition cycles, each of which runs the device `calculate`
once and stores its pressure and temperature, and the device log holds `k` more
`calculate` operations.  After `2k + 1` calls the phase is
`BAROMETER_NEEDS_CALCULATION` and pressure and temperature are still those of `k`
cycles.  Every call changes the phase; a call in phase `BAROMETER_NEEDS_SAMPLES`
only reads the temperature sample and starts the pressure conversion, leaving the
shared pressure and temperature as they were; a call in phase
`BAROMETER_NEEDS_CALCULATION` stores what `calculate` yields. -/
theorem acquisition_alternates {H : Type} (qmf : List Int → Int) (dev : baroDev_t H)
    (st : BaroState H) (h : st.state = barometerState_e.BAROMETER_NEEDS_SAMPLES) (k : Nat) :
    ((baroUpdateN qmf dev (2 * k) st).state = barometerState_e.BAROMETER_NEEDS_SAMPLES
        ∧ calculateCount (baroUpdateN qmf dev (2 * k) st).devLog
            = calculateCount st.devLog + k)
      ∧ ((baroUpdateN qmf dev (2 * k + 1) st).state
            = barometerState_e.BAROMETER_NEEDS_CALCULATION
          ∧ calculateCount (baroUpdateN qmf dev (2 * k + 1) st).devLog
              = calculateCount st.devLog + k)
      ∧ (∀ s : BaroState H, (baroUpdate qmf dev s).1.state ≠ s.state)
      ∧ (∀ s : BaroState H, s.state = barometerState_e.BAROMETER_NEEDS_SAMPLES →
          (baroUpdate qmf dev s).1.baroPressure = s.baroPressure
            ∧ (baroUpdate qmf dev s).1.baroTemperature = s.baroTemperature
            ∧ (baroUpdate qmf dev s).1.hw = dev.start_up (dev.get_ut s.hw)
            ∧ (baroUpdate qmf dev s).1.devLog
                = baroOp.start_up :: baroOp.get_ut :: s.devLog)
      ∧ (∀ s : BaroState H, s.state = barometerState_e.BAROMETER_NEEDS_CALCULATION →
          (baroUpdate qmf dev s).1.baroTemperature
              = (dev.calculate (dev.start_ut (dev.get_up s.hw))).2.2
            ∧ (baroUpdate qmf dev s).1.baroPressure
              = (if s.barometerConfig.use_median_filtering then
                  (applyBarometerMedianFilter qmf s.filter
                    (dev.calculate (dev.start_ut (dev.get_up s.hw))).2.1).2
                else (dev.calculate (dev.start_ut (dev.get_up s.hw))).2.1)
            ∧ (baroUpdate qmf dev s).1.hw
              = (dev.calculate (dev.start_ut (dev.get_up s.hw))).1
            ∧ (baroUpdate qmf dev s).1.devLog
              = baroOp.calculate :: baroOp.start_ut :: baroOp.get_up :: s.devLog)
      ∧ baroUpdateN qmf dev (2 * k) st = (acquisitionCycle qmf dev)^[k] st
      ∧ (baroUpdateN qmf dev (2 * k + 1) st).baroPressure
          = ((acquisitionCycle qmf dev)^[k] st).baroPressure
      ∧ (baroUpdateN qmf dev (2 * k + 1) st).baroTemperature
          = ((acquisitionCycle qmf dev)^[k] st).baroTemperature := by
  have he := baroUpdateN_even qmf dev st h k
  have hc := baroUpdateN_even_cycles qmf dev st h k
  have hsamples : ∀ s : BaroState H, s.state = barometerState_e.BAROMETER_NEEDS_SAMPLES →
      (baroUpdate qmf dev s).1.baroPressure = s.baroPressure
        ∧ (baroUpdate qmf dev s).1.baroTemperature = s.baroTemperature
        ∧ (baroUpdate qmf dev s).1.hw = dev.start_up (dev.get_ut s.hw)
        ∧ (baroUpdate qmf dev s).1.devLog
            = baroOp.start_up :: baroOp.get_ut :: s.devLog := by
    intro s hs
    simp [baroUpdate, hs]
  refine ⟨he, ?_, ?_, hsamples, ?_, hc, ?_, ?_⟩
  · rw [baroUpdateN_succ]
    obtain ⟨h1, _, h3⟩ := baroUpdate_samples qmf dev _ he.1
    exact ⟨h1, by rw [h3, he.2]⟩
  · intro s
    cases hs : s.state with
    | BAROMETER_NEEDS_SAMPLES =>
      rw [(baroUpdate_samples qmf dev s hs).1]; simp
    | BAROMETER_NEEDS_CALCULATION =>
      rw [(baroUpdate_calculation qmf dev s hs).1]; simp
  · intro s hs
    cases hf : s.barometerConfig.use_median_filtering <;> simp [baroUpdate, hs, hf]
  · rw [baroUpdateN_succ, (hsamples _ he.1).1, hc]
  · rw [baroUpdateN_succ, (hsamples _ he.1).2.1, hc]

/-- Witness for C5: the power-on state on the simulated device, `k = 2`. -/
theorem acquisition_alternates_witness :
    (initialState (0 : Nat) ⟨true⟩).state = barometerState_e.BAROMETER_NEEDS_SAMPLES
      ∧ (baroUpdateN quickMedianFilter3 (simDev 10000 10000) (2 * 2)
            (initialState (0 : Nat) ⟨true⟩)).state
          = barometerState_e.BAROMETER_NEEDS_SAMPLES
      ∧ calculateCount (baroUpdateN quickMedianFilter3 (simDev 10000 10000) (2 * 2)
            (initialState (0 : Nat) ⟨true⟩)).devLog
          = calculateCount (initialState (0 : Nat) ⟨true⟩).devLog + 2
      ∧ baroUpdateN quickMedianFilter3 (simDev 10000 10000) (2 * 2)
            (initialState (0 : Nat) ⟨true⟩)
          = (acquisitionCycle quickMedianFilter3 (simDev 10000 10000))^[2]
              (initialState (0 : Nat) ⟨true⟩) :=
  ⟨rfl,
    (acquisition_alternates quickMedianFilter3 (simDev 10000 10000)
      (initialState (0 : Nat) ⟨true⟩) rfl 2).1.1,
    (acquisition_alternates quickMedianFilter3 (simDev 10000 10000)
      (initialState (0 : Nat) ⟨true⟩) rfl 2).1.2,
    (acquisition_alternates quickMedianFilter3 (simDev 10000 10000)
      (initialState (0 : Nat) ⟨true⟩) rfl 2).2.2.2.2.2.1⟩

/-- C6: a call of `baroUpdate()` in phase `BAROMETER_NEEDS_SAMPLES` returns the
device's `up_delay`, a call in phase `BAROMETER_NEEDS_CALCULATION` returns its
`ut_delay`; hence, from a state in the initial phase, the odd-numbered calls return
`up_delay` and the even-numbered calls `ut_delay`, and no call returns anything other
than one of these two constants. -/
theorem baroUpdate_returns_phase_delay {H : Type} (qmf : List Int → Int)
    (dev : baroDev_t H) :
    (∀ st : BaroState H, st.state = barometerState_e.BAROMETER_NEEDS_SAMPLES →
        (baroUpdate qmf dev st).2 = dev.up_delay)
      ∧ (∀ st : BaroState H, st.state = barometerState_e.BAROMETER_NEEDS_CALCULATION →
        (baroUpdate qmf dev st).2 = dev.ut_delay)
      ∧ (∀ st : BaroState H, st.state = barometerState_e.BAROMETER_NEEDS_SAMPLES →
        ∀ k : Nat, baroUpdateDelay qmf dev (2 * k) st = dev.up_delay
          ∧ baroUpdateDelay qmf dev (2 * k + 1) st = dev.ut_delay)
      ∧ (∀ st : BaroState H, (baroUpdate qmf dev st).2 = dev.up_delay
          ∨ (baroUpdate qmf dev st).2 = dev.ut_delay) := by
  refine ⟨fun st h => (baroUpdate_samples qmf dev st h).2.1,
    fun st h => (baroUpdate_calculation qmf dev st h).2.1, ?_, ?_⟩
  · intro st h k
    have he := baroUpdateN_even qmf dev st h k
    refine ⟨(baroUpdate_samples qmf dev _ he.1).2.1, ?_⟩
    unfold baroUpdateDelay
    rw [baroUpdateN_succ]
    exact (baroUpdate_calculation qmf dev _ (baroUpdate_samples qmf dev _ he.1).1).2.1
  · exact baroUpdate_delay_cases qmf dev

/-- C7, as stated, fails: on a device whose temperature conversion needs no settling
time (`ut_delay = 0`) the second call of `baroUpdate()` from power-on returns 0. -/
theorem baroUpdate_delay_can_be_zero :
    baroUpdateDelay quickMedianFilter3 (simDev 0 25000) 1 (initialState (0 : Nat) ⟨true⟩) = 0 :=
  rfl

/-- C7, amended: for every state and every device whose two settling delays
`up_delay` and `ut_delay` are both non-zero, the delay returned by `baroUpdate()` is
not zero. -/
theorem baroUpdate_delay_nonzero {H : Type} (qmf : List Int → Int) (dev : baroDev_t H)
    (st : BaroState H) (hup : dev.up_delay ≠ 0) (hut : dev.ut_delay ≠ 0) :
    (baroUpdate qmf dev st).2 ≠ 0 := by
  rcases (baroUpdate_delay_cases qmf dev st) with h | h <;> rw [h] <;> assumption

/-- Witness for the amended C7: a device with both delays equal to 10000. -/
theorem baroUpdate_delay_nonzero_witness :
    (simDev 10000 10000).up_delay ≠ 0 ∧ (simDev 10000 10000).ut_delay ≠ 0
      ∧ (baroUpdate quickMedianFilter3 (simDev 10000 10000)
          (initialState (0 : Nat) ⟨true⟩)).2 ≠ 0 :=
  ⟨by decide, by decide,
    baroUpdate_delay_nonzero quickMedianFilter3 (simDev 10000 10000)
      (initialState (0 : Nat) ⟨true⟩) (by decide) (by decide)⟩

/-- C8, as stated, fails: in the power-on state with calibration complete, no
hardware-in-the-loop override, ground altitude 0 and a filtered pressure of 99992, and
with a `powf` whose result is within half a unit in the last place of the real power of
its operands, `baroCalculateAltitude()` returns 11158 and stores it in `baro.BaroAlt`,
while the real value of `(1 - (99992 / 101325)^0.190295) * 4433000` lies strictly between
11157 and 11157.5: its round-to-nearest integer is 11157, and the returned value is more
than one half away from it. -/
theorem altitude_99992_not_nearest_integer :
    isBaroCalibrationComplete (calibratedAt 99992) = true
      ∧ (calibratedAt 99992).hilActive = false
      ∧ (calibratedAt 99992).baroPressure = 99992
      ∧ (calibratedAt 99992).baroGroundAltitude = 0
      ∧ powfAccurateAt powfSeries (fdiv (intToFloat 99992) SEA_LEVEL_PRESSURE) BARO_EXPONENT
          (1 / 2 ^ 25)
      ∧ (baroCalculateAltitude powfSeries (calibratedAt 99992)).2 = 11158
      ∧ (baroCalculateAltitude powfSeries (calibratedAt 99992)).1.BaroAlt = 11158
      ∧ (11157 : ℝ) < (1 - ((99992 : ℝ) / 101325) ^ (190295 / 1000000 : ℝ)) * 4433000
      ∧ (1 - ((99992 : ℝ) / 101325) ^ (190295 / 1000000 : ℝ)) * 4433000 < 11157 + 1 / 2
      ∧ ¬ |(((baroCalculateAltitude powfSeries (calibratedAt 99992)).2 : ℤ) : ℝ)
            - ((1 - ((99992 : ℝ) / 101325) ^ (190295 / 1000000 : ℝ)) * 4433000 - 0)|
          ≤ 1 / 2 := by
  obtain ⟨e1, e2⟩ := baroCalculateAltitude_calibrated powfSeries (calibratedAt 99992) rfl rfl
  have hr : (baroCalculateAltitude powfSeries (calibratedAt 99992)).2 = 11158 := by
    rw [e1]
    show wrapInt32 (wrapInt32 (lrintf (pressureToAltitude powfSeries (intToFloat 99992))) - 0)
      = 11158
    rw [altitude_powfSeries_99992]
    rfl
  obtain ⟨b1, b2⟩ := documented_formula_99992
  refine ⟨rfl, rfl, rfl, rfl, powfSeries_accurate_99992, hr, ?_, b1, b2, ?_⟩
  · rw [e2, hr]
  · rw [hr, not_le, sub_zero]
    refine lt_of_lt_of_le ?_ (le_abs_self _)
    push_cast
    linarith

/-- C8, amended: in every state with calibration complete, no hardware-in-the-loop
override and a filtered pressure between 30000 and 110000, and for every `powf` accurate
to `2^-24` at the operands it receives, `baroCalculateAltitude()` returns
`a - groundAltitude` in `int32_t` arithmetic (exactly `a - groundAltitude` whenever that
difference is in range), where `a` is the round-to-nearest integer of the
single-precision evaluation of `(1 - (pressure / 101325)^0.190295) * 4433000` at the
current filtered pressure; `a` is less than 1 away from the real value of that formula
(it need not be its nearest integer); the returned value is stored in `baro.BaroAlt` and
nothing else in the state changes. -/
theorem altitude_within_one_of_formula {H : Type} (powf : ℚ → ℚ → ℚ) (st : BaroState H)
    (hc : isBaroCalibrationComplete st = true) (hh : st.hilActive = false)
    (h1 : 30000 ≤ st.baroPressure) (h2 : st.baroPressure ≤ 110000)
    (hacc : powfAccurateAt powf (fdiv (intToFloat st.baroPressure) SEA_LEVEL_PRESSURE)
      BARO_EXPONENT (1 / 2 ^ 24)) :
    (baroCalculateAltitude powf st).2
        = wrapInt32 (lrintf (pressureToAltitude powf (intToFloat st.baroPressure))
            - st.baroGroundAltitude)
      ∧ (isInt32 (lrintf (pressureToAltitude powf (intToFloat st.baroPressure))
            - st.baroGroundAltitude) →
          (baroCalculateAltitude powf st).2
            = lrintf (pressureToAltitude powf (intToFloat st.baroPressure))
              - st.baroGroundAltitude)
      ∧ |((lrintf (pressureToAltitude powf (intToFloat st.baroPressure)) : ℤ) : ℝ)
            - (1 - ((st.baroPressure : ℝ) / 101325) ^ (190295 / 1000000 : ℝ)) * 4433000| < 1
      ∧ |((lrintf (pressureToAltitude powf (intToFloat st.baroPressure)) : ℤ) : ℚ)
            - pressureToAltitude powf (intToFloat st.baroPressure)| ≤ 1 / 2
      ∧ pressureToAltitude powf (intToFloat st.baroPressure)
          = fmul (fsub 1 (powf (fdiv (st.baroPressure : ℚ) 101325) BARO_EXPONENT)) 4433000
      ∧ (baroCalculateAltitude powf st).1
          = { st with BaroAlt := (baroCalculateAltitude powf st).2 } := by
  obtain ⟨e1, e2⟩ := baroCalculateAltitude_calibrated powf st hc hh
  obtain ⟨b1, b2⟩ := altitude_error_bound powf st.baroPressure h1 h2 hacc
  have hp : |st.baroPressure| < 16777216 := by
    rw [abs_lt]
    constructor <;> omega
  have hw : (baroCalculateAltitude powf st).2
      = wrapInt32 (lrintf (pressureToAltitude powf (intToFloat st.baroPressure))
          - st.baroGroundAltitude) := by
    rw [e1, wrapInt32_of_isInt32 _ b2]
  refine ⟨hw, ?_, b1, roundHalfEven_sub_le _, ?_, e2⟩
  · intro hd
    rw [hw, wrapInt32_of_isInt32 _ hd]
  · rw [pressureToAltitude_eq, intToFloat_small _ hp]

/-- Witness for the amended C8: the power-on state with a filtered pressure of 99992,
where the returned value 11158 is not the nearest integer of the formula. -/
theorem altitude_within_one_of_formula_witness :
    isBaroCalibrationComplete (calibratedAt 99992) = true
      ∧ (calibratedAt 99992).hilActive = false
      ∧ 30000 ≤ (calibratedAt 99992).baroPressure
      ∧ (calibratedAt 99992).baroPressure ≤ 110000
      ∧ powfAccurateAt powfSeries
          (fdiv (intToFloat (calibratedAt 99992).baroPressure) SEA_LEVEL_PRESSURE)
          BARO_EXPONENT (1 / 2 ^ 24)
      ∧ |((lrintf (pressureToAltitude powfSeries
              (intToFloat (calibratedAt 99992).baroPressure)) : ℤ) : ℝ)
            - (1 - (((calibratedAt 99992).baroPressure : ℝ) / 101325)
                ^ (190295 / 1000000 : ℝ)) * 4433000| < 1
      ∧ (baroCalculateAltitude powfSeries (calibratedAt 99992)).1
          = { calibratedAt 99992 with
                BaroAlt := (baroCalculateAltitude powfSeries (calibratedAt 99992)).2 } :=
  have hacc : powfAccurateAt powfSeries
      (fdiv (intToFloat (calibratedAt 99992).baroPressure) SEA_LEVEL_PRESSURE)
      BARO_EXPONENT (1 / 2 ^ 24) :=
    powfAccurateAt_mono powfSeries _ _ (1 / 2 ^ 25) (1 / 2 ^ 24) (by norm_num)
      powfSeries_accurate_99992
  have h := altitude_within_one_of_formula powfSeries (calibratedAt 99992) rfl rfl
    (by decide) (by decide) hacc
  ⟨rfl, rfl, by decide, by decide, hacc, h.2.2.1, h.2.2.2.2.2⟩

/-- C9: with calibration complete, ground altitude 0 and a filtered pressure of
exactly 101325, `baroCalculateAltitude()` returns 0 within 1 cm, for every `powf`
that is accurate to `2^-23` at the operands it receives; it returns exactly 0 when
`powf` returns exactly 1 there. -/
theorem altitude_at_sea_level {H : Type} (powf : ℚ → ℚ → ℚ) (st : BaroState H)
    (hc : isBaroCalibrationComplete st = true) (hh : st.hilActive = false)
    (hg : st.baroGroundAltitude = 0) (hp : st.baroPressure = 101325)
    (hacc : powfAccurateAt powf (fdiv (intToFloat 101325) SEA_LEVEL_PRESSURE) BARO_EXPONENT
      (1 / 2 ^ 23)) :
    |(baroCalculateAltitude powf st).2| ≤ 1
      ∧ (powf (fdiv (intToFloat 101325) SEA_LEVEL_PRESSURE) BARO_EXPONENT = 1 →
          (baroCalculateAltitude powf st).2 = 0) := by
  have hr : (baroCalculateAltitude powf st).2
      = wrapInt32 (lrintf (fmul (fsub 1
          (powf (fdiv (intToFloat 101325) SEA_LEVEL_PRESSURE) BARO_EXPONENT)) 4433000)) := by
    rw [(baroCalculateAltitude_calibrated powf st hc hh).1, hg, hp, pressureToAltitude_eq,
      SEA_LEVEL_PRESSURE_eq, sub_zero]
    exact wrapInt32_of_isInt32 _ (by unfold wrapInt32 isInt32; omega)
  have hP : |powf (fdiv (intToFloat 101325) SEA_LEVEL_PRESSURE) BARO_EXPONENT - 1|
      ≤ 1 / 2 ^ 23 := by
    unfold powfAccurateAt at hacc
    rw [ratio_101325] at hacc ⊢
    simp only [Rat.cast_one, Real.one_rpow] at hacc
    exact_mod_cast hacc
  rw [hr]
  exact altitude_of_unit_ratio _ hP

/-- Witness for C9: the power-on state with a filtered pressure of 101325, and the
series `powf`. -/
theorem altitude_at_sea_level_witness :
    powfAccurateAt powfSeries (fdiv (intToFloat 101325) SEA_LEVEL_PRESSURE) BARO_EXPONENT
        (1 / 2 ^ 23)
      ∧ |(baroCalculateAltitude powfSeries (calibratedAt 101325)).2| ≤ 1 :=
  ⟨powfSeries_accurate_101325,
    (altitude_at_sea_level powfSeries (calibratedAt 101325) rfl rfl rfl rfl
      powfSeries_accurate_101325).1⟩

/-- C10, as stated, fails: with calibration complete, ground altitude 0 and a
filtered pressure of 100000, and with a `powf` that is within `2^-21` of the real
power at the operands it receives, the returned altitude is 11090, which is not
within 2 cm of 1105. -/
theorem pressure_100000_far_from_1105 :
    powfAccurateAt powfSeries (fdiv (intToFloat 100000) SEA_LEVEL_PRESSURE) BARO_EXPONENT
        (1 / 2 ^ 21)
      ∧ (baroCalculateAltitude powfSeries (calibratedAt 100000)).2 = 11090
      ∧ ¬ |(baroCalculateAltitude powfSeries (calibratedAt 100000)).2 - 1105| ≤ 2 := by
  have hr : (baroCalculateAltitude powfSeries (calibratedAt 100000)).2 = 11090 := by
    rw [(baroCalculateAltitude_calibrated powfSeries (calibratedAt 100000) rfl rfl).1]
    show wrapInt32 (wrapInt32 (lrintf (pressureToAltitude powfSeries (intToFloat 100000))) - 0)
      = 11090
    rw [pressureToAltitude_eq, ← SEA_LEVEL_PRESSURE_eq, ratio_100000, BARO_EXPONENT_eq,
      powfSeries_100000, altitude_powfSeries_100000]
    rfl
  rw [hr]
  exact ⟨by rw [ratio_100000, BARO_EXPONENT_eq]; exact powfSeries_accurate_100000, rfl,
    by decide⟩

/-- C10, amended: with calibration complete, ground altitude 0 and a filtered
pressure of 100000, `baroCalculateAltitude()` returns a value within 2 cm of 11090,
for every `powf` accurate to `2^-21` at the operands it receives; the documented
formula `(1 - (pressure / 101325)^0.190295) * 4433000` itself evaluates to a real
number between 11090 and 11091. -/
theorem altitude_at_100000 {H : Type} (powf : ℚ → ℚ → ℚ) (st : BaroState H)
    (hc : isBaroCalibrationComplete st = true) (hh : st.hilActive = false)
    (hg : st.baroGroundAltitude = 0) (hp : st.baroPressure = 100000)
    (hacc : powfAccurateAt powf (fdiv (intToFloat 100000) SEA_LEVEL_PRESSURE) BARO_EXPONENT
      (1 / 2 ^ 21)) :
    |(baroCalculateAltitude powf st).2 - 11090| ≤ 2
      ∧ (11090 : ℝ) ≤ (1 - ((100000 : ℝ) / 101325) ^ (190295 / 1000000 : ℝ)) * 4433000
      ∧ (1 - ((100000 : ℝ) / 101325) ^ (190295 / 1000000 : ℝ)) * 4433000 ≤ 11091 := by
  refine ⟨?_, documented_formula_100000⟩
  rw [ratio_100000, BARO_EXPONENT_eq] at hacc
  obtain ⟨b1, b2⟩ := powf_enclosure_100000 powf hacc
  obtain ⟨r1, r2⟩ := altitude_of_ratio_100000 _ b1 b2
  have hr : (baroCalculateAltitude powf st).2
      = wrapInt32 (lrintf (fmul (fsub 1
          (powf (16557825 / 16777216) (12770481 / 67108864))) 4433000)) := by
    rw [(baroCalculateAltitude_calibrated powf st hc hh).1, hg, hp, pressureToAltitude_eq,
      ← SEA_LEVEL_PRESSURE_eq, ratio_100000, BARO_EXPONENT_eq, sub_zero]
    exact wrapInt32_of_isInt32 _ (by unfold wrapInt32 isInt32; omega)
  rw [hr, abs_le]
  constructor <;> omega

/-- Witness for the amended C10: the power-on state with a filtered pressure of
100000, and the series `powf`. -/
theorem altitude_at_100000_witness :
    powfAccurateAt powfSeries (fdiv (intToFloat 100000) SEA_LEVEL_PRESSURE) BARO_EXPONENT
        (1 / 2 ^ 21)
      ∧ |(baroCalculateAltitude powfSeries (calibratedAt 100000)).2 - 11090| ≤ 2 :=
  ⟨by rw [ratio_100000, BARO_EXPONENT_eq]; exact powfSeries_accurate_100000,
    (altitude_at_100000 powfSeries (calibratedAt 100000) rfl rfl rfl rfl
      (by rw [ratio_100000, BARO_EXPONENT_eq]; exact powfSeries_accurate_100000)).1⟩

/-- C11: for every prior state, after `baroSetCalibrationCycles(0)`
`isBaroCalibrationComplete()` returns true and the ground reference
(`baroGroundPressure`, `baroGroundAltitude`) is unchanged; a second call changes
nothing further. -/
theorem set_zero_cycles_completes {H : Type} (st : BaroState H) :
    isBaroCalibrationComplete (baroSetCalibrationCycles st 0) = true
      ∧ (baroSetCalibrationCycles st 0).baroGroundPressure = st.baroGroundPressure
      ∧ (baroSetCalibrationCycles st 0).baroGroundAltitude = st.baroGroundAltitude
      ∧ baroSetCalibrationCycles (baroSetCalibrationCycles st 0) 0
          = baroSetCalibrationCycles st 0 :=
  ⟨rfl, rfl, rfl, rfl⟩

/-- C12: for every accumulator value `g` and filtered pressure `p` for which the
`int32_t` arithmetic does not overflow, one calibration cycle sets the ground-pressure
accumulator to `g - g / 8 + p` with the C division truncating toward zero, decrements
the calibration counter by exactly one (modulo `2^16`, the counter being a
`uint16_t`) and leaves the filtered pressure unchanged. -/
theorem calibration_cycle_update {H : Type} (powf : ℚ → ℚ → ℚ) (st : BaroState H)
    (hg : isInt32 st.baroGroundPressure)
    (hs : isInt32 (st.baroGroundPressure - Int.tdiv st.baroGroundPressure 8 + st.baroPressure)) :
    (performBaroCalibrationCycle powf st).baroGroundPressure
        = st.baroGroundPressure - Int.tdiv st.baroGroundPressure 8 + st.baroPressure
      ∧ ((performBaroCalibrationCycle powf st).calibratingB + 1) % 65536
          = st.calibratingB % 65536
      ∧ (0 < st.calibratingB → st.calibratingB < 65536 →
          (performBaroCalibrationCycle powf st).calibratingB + 1 = st.calibratingB)
      ∧ (performBaroCalibrationCycle powf st).baroPressure = st.baroPressure := by
  refine ⟨cycle_groundPressure powf st hg hs, ?_, ?_, cycle_baroPressure powf st⟩
  · show (decUInt16 st.calibratingB + 1) % 65536 = _
    unfold decUInt16
    omega
  · intro h0 h1
    show decUInt16 st.calibratingB + 1 = _
    unfold decUInt16
    omega

/-- Witness for C12: a negative accumulator, so that the division truncates toward
zero: `-9 - (-9 / 8) + 100000 = 99992`. -/
theorem calibration_cycle_update_witness :
    isInt32 (-9) ∧ isInt32 (-9 - Int.tdiv (-9) 8 + 100000)
      ∧ (performBaroCalibrationCycle powfSeries
          { calibratedAt 100000 with baroGroundPressure := -9, calibratingB := 5
          }).baroGroundPressure = -9 - Int.tdiv (-9) 8 + 100000 :=
  ⟨by decide, by decide,
    (calibration_cycle_update powfSeries
      { calibratedAt 100000 with baroGroundPressure := -9, calibratingB := 5 }
      (by decide) (by decide)).1⟩

/-- C13 does not hold on the code: the calibration cycle stores the altitude of
`groundPressure / 8` truncated toward zero, not rounded to nearest as
`baroCalculateAltitude` does.  From power-on at the constant filtered pressure 100013,
after `baroSetCalibrationCycles(200)` and 200 calls of `baroCalculateAltitude()` the
current pressure equals `groundPressure / 8`, the stored ground altitude is 10980
while `lrintf` of the same expression is 10981, and the next call of
`baroCalculateAltitude()` returns 1 instead of 0 (with a `powf` within `2^-25` of the
real power at the operands it receives). -/
theorem ground_altitude_truncated_not_rounded :
    powfAccurateAt powfSeries (fdiv (intToFloat 100013) SEA_LEVEL_PRESSURE) BARO_EXPONENT
        (1 / 2 ^ 25)
      ∧ isBaroCalibrationComplete
          (baroCalculateAltitudeN powfSeries 200
            (baroSetCalibrationCycles (calibratedAt 100013) 200)) = true
      ∧ (baroCalculateAltitudeN powfSeries 200
            (baroSetCalibrationCycles (calibratedAt 100013) 200)).baroPressure
          = Int.tdiv (baroCalculateAltitudeN powfSeries 200
              (baroSetCalibrationCycles (calibratedAt 100013) 200)).baroGroundPressure 8
      ∧ (baroCalculateAltitudeN powfSeries 200
            (baroSetCalibrationCycles (calibratedAt 100013) 200)).baroGroundAltitude = 10980
      ∧ lrintf (pressureToAltitude powfSeries (intToFloat
          (Int.tdiv (baroCalculateAltitudeN powfSeries 200
            (baroSetCalibrationCycles (calibratedAt 100013) 200)).baroGroundPressure 8)))
          = 10981
      ∧ (baroCalculateAltitude powfSeries
          (baroCalculateAltitudeN powfSeries 200
            (baroSetCalibrationCycles (calibratedAt 100013) 200))).2 = 1 := by
  obtain ⟨h1, h2, h3, h4, h5⟩ := calibration_then_altitude_100013 powfSeries
    (calibratedAt 100013) rfl rfl rfl powfSeries_accurate_100013
  have t8 : Int.tdiv 800104 8 = 100013 := by decide
  refine ⟨powfSeries_accurate_100013, h1, ?_, h4, ?_, h5⟩
  · rw [h2, h3, t8]
  · rw [h2, t8]
    exact (altitude_at_ground_100013 powfSeries powfSeries_accurate_100013).1

/-- C14, as stated, fails: from a zero accumulator with the constant filtered pressure
100000, the estimate `groundPressure / 8` after 8 calibration cycles is 65639, not
100000. -/
theorem estimate_after_eight_cycles_biased :
    Int.tdiv (groundPressureAfter powfSeries (calibratedAt 100000) 8) 8 = 65639
      ∧ Int.tdiv (groundPressureAfter powfSeries (calibratedAt 100000) 8) 8 ≠ 100000 := by
  have hp : (calibratedAt 100000).baroPressure = 100000 := rfl
  have hb : 8 * (calibratedAt 100000).baroPressure ≤ 2147483647 := by rw [hp]; decide
  have s0 := groundPressureAfter_step powfSeries (calibratedAt 100000) rfl (by rw [hp]; decide) hb 0
  have s1 := (groundPressureAfter_step powfSeries (calibratedAt 100000) rfl (by rw [hp]; decide) hb 1).2.2
  have s2 := (groundPressureAfter_step powfSeries (calibratedAt 100000) rfl (by rw [hp]; decide) hb 2).2.2
  have s3 := (groundPressureAfter_step powfSeries (calibratedAt 100000) rfl (by rw [hp]; decide) hb 3).2.2
  have s4 := (groundPressureAfter_step powfSeries (calibratedAt 100000) rfl (by rw [hp]; decide) hb 4).2.2
  have s5 := (groundPressureAfter_step powfSeries (calibratedAt 100000) rfl (by rw [hp]; decide) hb 5).2.2
  have s6 := (groundPressureAfter_step powfSeries (calibratedAt 100000) rfl (by rw [hp]; decide) hb 6).2.2
  have s7 := (groundPressureAfter_step powfSeries (calibratedAt 100000) rfl (by rw [hp]; decide) hb 7).2.2
  have s8 := (groundPressureAfter_step powfSeries (calibratedAt 100000) rfl (by rw [hp]; decide) hb 8).1
  have z : groundPressureAfter powfSeries (calibratedAt 100000) 0 = 0 :=
    groundPressureAfter_zero powfSeries (calibratedAt 100000)
  rw [hp] at s0 s1 s2 s3 s4 s5 s6 s7
  rw [z] at s0
  norm_num at s0 s1 s2 s3 s4 s5 s6 s7
  rw [tdiv8_of_nonneg _ s8]
  omega

/-- C14, amended: from a zero accumulator with a constant filtered pressure `p > 0`
(and `8 * p ≤ 2^31 - 1`), the estimate `groundPressure / 8` never exceeds `p`; it is
still below `p` after 8 calibration cycles whenever `p ≥ 2`; and it equals `p` after
every number `n` of cycles with `8 * p * 7^n < 8^n`. -/
theorem estimate_bias_duration {H : Type} (powf : ℚ → ℚ → ℚ) (st : BaroState H)
    (hg : st.baroGroundPressure = 0) (hp0 : 0 < st.baroPressure)
    (hp8 : 8 * st.baroPressure ≤ 2147483647) :
    (∀ n : Nat, Int.tdiv (groundPressureAfter powf st n) 8 ≤ st.baroPressure)
      ∧ (2 ≤ st.baroPressure →
          Int.tdiv (groundPressureAfter powf st 8) 8 < st.baroPressure)
      ∧ (∀ n : Nat, 8 * st.baroPressure * 7 ^ n < 8 ^ n →
          Int.tdiv (groundPressureAfter powf st n) 8 = st.baroPressure) := by
  refine ⟨?_, ?_, ?_⟩
  · intro n
    obtain ⟨h0, h1, _⟩ := groundPressureAfter_step powf st hg hp0.le hp8 n
    rw [tdiv8_of_nonneg _ h0]
    omega
  · intro h2
    obtain ⟨h0, _, _⟩ := groundPressureAfter_step powf st hg hp0.le hp8 8
    have h8 := groundPressureAfter_eight powf st hg h2 hp8
    rw [tdiv8_of_nonneg _ h0]
    omega
  · intro n hn
    rw [groundPressureAfter_of_geometric powf st hg hp0.le hp8 n hn,
      tdiv8_of_nonneg _ (by omega)]
    omega

/-- Witness for the amended C14: pressure 100000, 102 cycles. -/
theorem estimate_bias_duration_witness :
    (calibratedAt 100000).baroGroundPressure = 0
      ∧ 0 < (calibratedAt 100000).baroPressure
      ∧ 8 * (calibratedAt 100000).baroPressure ≤ 2147483647
      ∧ Int.tdiv (groundPressureAfter powfSeries (calibratedAt 100000) 102) 8
          = (calibratedAt 100000).baroPressure :=
  ⟨rfl, by decide, by decide,
    (estimate_bias_duration powfSeries (calibratedAt 100000) rfl (by decide)
      (by decide)).2.2 102
      (by show (8 : Int) * 100000 * 7 ^ 102 < 8 ^ 102; norm_num)⟩

/-- C15: once calibration is complete, any sequence of further
`baroCalculateAltitude()` and `baroUpdate()` calls leaves the calibration counter at 0
(it never wraps), `isBaroCalibrationComplete()` true, and `baroGroundPressure` and
`baroGroundAltitude` at their values. -/
theorem calibration_state_frozen {H : Type} (qmf : List Int → Int) (dev : baroDev_t H)
    (powf : ℚ → ℚ → ℚ) (st : BaroState H) (h : isBaroCalibrationComplete st = true)
    (calls : List baroCall) :
    (runCalls qmf dev powf calls st).calibratingB = 0
      ∧ isBaroCalibrationComplete (runCalls qmf dev powf calls st) = true
      ∧ (runCalls qmf dev powf calls st).baroGroundPressure = st.baroGroundPressure
      ∧ (runCalls qmf dev powf calls st).baroGroundAltitude = st.baroGroundAltitude := by
  have h0 : st.calibratingB = 0 := by simpa [isBaroCalibrationComplete] using h
  obtain ⟨h1, h2, h3⟩ := runCalls_calibration_frame qmf dev powf calls st h0
  exact ⟨h1, by simp [isBaroCalibrationComplete, h1], h2, h3⟩

/-- Witness for C15: four calls on the power-on state with pressure 100000. -/
theorem calibration_state_frozen_witness :
    isBaroCalibrationComplete (calibratedAt 100000) = true
      ∧ (runCalls quickMedianFilter3 (simDev 10000 10000) powfSeries
          [baroCall.update, baroCall.calculateAltitude, baroCall.update,
            baroCall.calculateAltitude] (calibratedAt 100000)).calibratingB = 0 :=
  ⟨rfl,
    (calibration_state_frozen quickMedianFilter3 (simDev 10000 10000) powfSeries
      (calibratedAt 100000) rfl
      [baroCall.update, baroCall.calculateAltitude, baroCall.update,
        baroCall.calculateAltitude]).1⟩

/-- C16: in the `BAROMETER_NEEDS_CALCULATION` step of `baroUpdate()`, without median
filtering the shared pressure becomes exactly the compensated pressure produced by the
device's `calculate` and the filter statics are unchanged; with median filtering it
becomes the result of `applyBarometerMedianFilter` on that compensated pressure (and
the filter statics are those left by that call).  The `BAROMETER_NEEDS_SAMPLES` step
changes neither the shared pressure nor the filter statics. -/
theorem baroUpdate_filtering {H : Type} (qmf : List Int → Int) (dev : baroDev_t H) :
    (∀ st : BaroState H, st.state = barometerState_e.BAROMETER_NEEDS_CALCULATION →
        st.barometerConfig.use_median_filtering = false →
        (baroUpdate qmf dev st).1.baroPressure
            = (dev.calculate (dev.start_ut (dev.get_up st.hw))).2.1
          ∧ (baroUpdate qmf dev st).1.filter = st.filter)
      ∧ (∀ st : BaroState H, st.state = barometerState_e.BAROMETER_NEEDS_CALCULATION →
        st.barometerConfig.use_median_filtering = true →
        (baroUpdate qmf dev st).1.baroPressure
            = (applyBarometerMedianFilter qmf st.filter
                (dev.calculate (dev.start_ut (dev.get_up st.hw))).2.1).2
          ∧ (baroUpdate qmf dev st).1.filter
            = (applyBarometerMedianFilter qmf st.filter
                (dev.calculate (dev.start_ut (dev.get_up st.hw))).2.1).1)
      ∧ (∀ st : BaroState H, st.state = barometerState_e.BAROMETER_NEEDS_SAMPLES →
        (baroUpdate qmf dev st).1.baroPressure = st.baroPressure
          ∧ (baroUpdate qmf dev st).1.filter = st.filter) := by
  refine ⟨?_, ?_, ?_⟩
  · intro st hs hf
    simp [baroUpdate, hs, hf]
  · intro st hs hf
    simp [baroUpdate, hs, hf]
  · intro st hs
    simp [baroUpdate, hs]

/-- C17: in a sequence of pushes into a freshly initialised filter in which every
sample equals `v` except one sample at position `j ≥ 3` (here `j = m + 1` with
`m ≥ 2` samples before it and `k` after it), every call of
`applyBarometerMedianFilter`, the one pushing the spike included, returns `v`;
`quickMedianFilter3` is taken to return a median of its three-element argument. -/
theorem single_spike_rejected (qmf : List Int → Int)
    (hq : ∀ l : List Int, l.length = 3 → isMedianOf l (qmf l))
    (v spike : Int) (m k : Nat) (hm : 2 ≤ m) :
    (pushSamples qmf medianFilterInit
        (List.replicate m v ++ spike :: List.replicate k v)).2
      = List.replicate (m + 1 + k) v := by
  obtain ⟨n, rfl⟩ : ∃ n, m = 2 + n := ⟨m - 2, by omega⟩
  have e : List.replicate (2 + n) v ++ spike :: List.replicate k v
      = [v, v] ++ (List.replicate n v ++ ([spike] ++ List.replicate k v)) := by
    rw [List.replicate_add]
    simp only [List.append_assoc]
    rfl
  have e2 : [v, v] ++ (List.replicate n v ++ ([v] ++ List.replicate k v))
      = List.replicate (2 + n + 1 + k) v := by
    rw [List.replicate_add, List.replicate_add, List.replicate_add]
    simp only [List.append_assoc]
    rfl
  obtain ⟨a1, a2⟩ := two_pushes_init qmf v
  obtain ⟨b1, b2⟩ := othersHold_pushSamples qmf hq v n _ a2
  obtain ⟨c1, c2, _⟩ := othersHold_push qmf hq v spike _ b2
  have d1 := twoHold_pushSamples qmf hq v k _ c2
  have hspike : ∀ f : medianFilter_t, pushSamples qmf f [spike]
      = ((applyBarometerMedianFilter qmf f spike).1,
          [(applyBarometerMedianFilter qmf f spike).2]) := fun f => rfl
  rw [e, pushSamples_append, pushSamples_append, pushSamples_append, hspike]
  simp only [a1, b1, c1, d1]
  exact e2

/-- Witness for C17: two samples 100000, a spike of 5, then three samples 100000. -/
theorem single_spike_rejected_witness :
    (∀ l : List Int, l.length = 3 → isMedianOf l (quickMedianFilter3 l))
      ∧ 2 ≤ 2
      ∧ (pushSamples quickMedianFilter3 medianFilterInit
          (List.replicate 2 100000 ++ 5 :: List.replicate 3 100000)).2
        = List.replicate (2 + 1 + 3) 100000 :=
  ⟨quickMedianFilter3_isMedianOf, le_rfl,
    single_spike_rejected quickMedianFilter3 quickMedianFilter3_isMedianOf 100000 5 2 3
      le_rfl⟩

/-- C18: for every bound `P` with `0 ≤ P` and `8 * P ≤ 2^31 - 1`, a calibration cycle
started with the accumulator in `[0, 8P]` and the filtered pressure in `[0, P]`
computes `g - g / 8 + p` without leaving the `int32_t` range and leaves the
accumulator in `[0, 8P]`; hence after any run of calibration cycles with samples in
`[0, P]` the accumulator is in `[0, 8P]` and the estimate `groundPressure / 8` does
not exceed `P`. -/
theorem accumulator_bounded {H : Type} (powf : ℚ → ℚ → ℚ) (P : Int) (h0 : 0 ≤ P)
    (hP : 8 * P ≤ 2147483647) :
    (∀ st : BaroState H, 0 ≤ st.baroGroundPressure → st.baroGroundPressure ≤ 8 * P →
        0 ≤ st.baroPressure → st.baroPressure ≤ P →
        isInt32 (st.baroGroundPressure - Int.tdiv st.baroGroundPressure 8)
          ∧ isInt32 (st.baroGroundPressure - Int.tdiv st.baroGroundPressure 8
              + st.baroPressure)
          ∧ (performBaroCalibrationCycle powf st).baroGroundPressure
              = st.baroGroundPressure - Int.tdiv st.baroGroundPressure 8 + st.baroPressure
          ∧ 0 ≤ (performBaroCalibrationCycle powf st).baroGroundPressure
          ∧ (performBaroCalibrationCycle powf st).baroGroundPressure ≤ 8 * P)
      ∧ (∀ (st : BaroState H) (ps : List Int), 0 ≤ st.baroGroundPressure →
        st.baroGroundPressure ≤ 8 * P → (∀ p ∈ ps, 0 ≤ p ∧ p ≤ P) →
        0 ≤ (calibrateWithSamples powf ps st).baroGroundPressure
          ∧ (calibrateWithSamples powf ps st).baroGroundPressure ≤ 8 * P
          ∧ Int.tdiv (calibrateWithSamples powf ps st).baroGroundPressure 8 ≤ P) := by
  constructor
  · intro st hg0 hg1 hp0 hp1
    have hb := cycle_bounded powf st P hP hg0 hg1 hp0 hp1
    rw [tdiv8_of_nonneg _ hg0]
    refine ⟨by unfold isInt32; omega, by unfold isInt32; omega, hb.1, hb.2.1, hb.2.2⟩
  · intro st ps hg0 hg1 hps
    obtain ⟨r0, r1⟩ := calibrateWithSamples_bounded powf P hP ps st hg0 hg1 hps
    refine ⟨r0, r1, ?_⟩
    rw [tdiv8_of_nonneg _ r0]
    omega

/-- Witness for C18: the bound `P = 110000`, from the power-on state, three samples. -/
theorem accumulator_bounded_witness :
    (0 : Int) ≤ 110000 ∧ (8 : Int) * 110000 ≤ 2147483647
      ∧ Int.tdiv (calibrateWithSamples powfSeries [100000, 100013, 99990]
          (calibratedAt 100000)).baroGroundPressure 8 ≤ 110000 :=
  ⟨by decide, by decide,
    ((accumulator_bounded powfSeries 110000 (by decide) (by decide)).2
      (calibratedAt 100000) [100000, 100013, 99990] (by decide) (by decide)
      (by decide)).2.2⟩

/-- C19: for every constant filtered pressure `p` with `0 ≤ p` and
`8 * p ≤ 2^31 - 1`, the calibration update `g := g - g / 8 + p` iterated from `g = 0`
(without overflow) gives a non-decreasing sequence, strictly increasing as long as
`g < 8 * p`, that equals `8 * p` from some cycle on; `8 * p` is a fixed point of the
update, and from then on `groundPressure / 8` equals `p`. -/
theorem accumulator_converges_exactly {H : Type} (powf : ℚ → ℚ → ℚ) (st : BaroState H)
    (hg : st.baroGroundPressure = 0) (hp0 : 0 ≤ st.baroPressure)
    (hp8 : 8 * st.baroPressure ≤ 2147483647) :
    (∀ n : Nat, groundPressureAfter powf st (n + 1)
        = groundPressureAfter powf st n - Int.tdiv (groundPressureAfter powf st n) 8
          + st.baroPressure)
      ∧ (∀ n : Nat, groundPressureAfter powf st n ≤ groundPressureAfter powf st (n + 1))
      ∧ (∀ n : Nat, groundPressureAfter powf st n < 8 * st.baroPressure →
          groundPressureAfter powf st n < groundPressureAfter powf st (n + 1))
      ∧ (∃ N : Nat, ∀ n : Nat, N ≤ n →
          groundPressureAfter powf st n = 8 * st.baroPressure
            ∧ Int.tdiv (groundPressureAfter powf st n) 8 = st.baroPressure)
      ∧ (∀ s : BaroState H, s.baroGroundPressure = 8 * st.baroPressure →
          s.baroPressure = st.baroPressure →
          (performBaroCalibrationCycle powf s).baroGroundPressure = 8 * st.baroPressure) := by
  refine ⟨?_, ?_, ?_, ?_, ?_⟩
  · intro n
    obtain ⟨h0, h1, h2⟩ := groundPressureAfter_step powf st hg hp0 hp8 n
    rw [tdiv8_of_nonneg _ h0]
    omega
  · intro n
    obtain ⟨h0, h1, h2⟩ := groundPressureAfter_step powf st hg hp0 hp8 n
    omega
  · intro n hlt
    obtain ⟨h0, h1, h2⟩ := groundPressureAfter_step powf st hg hp0 hp8 n
    omega
  · refine ⟨(8 * st.baroPressure).toNat, ?_⟩
    intro n hn
    have hf := groundPressureAfter_final powf st hg hp0 hp8 n (by omega)
    rw [hf, tdiv8_of_nonneg _ (by omega)]
    exact ⟨rfl, by omega⟩
  · intro s hs hp
    have hb := cycle_bounded powf s st.baroPressure hp8 (by omega) (by omega)
      (by omega) (by omega)
    rw [hb.1]
    omega

/-- Witness for C19: the power-on state with the constant pressure 100000. -/
theorem accumulator_converges_exactly_witness :
    (calibratedAt 100000).baroGroundPressure = 0
      ∧ 0 ≤ (calibratedAt 100000).baroPressure
      ∧ 8 * (calibratedAt 100000).baroPressure ≤ 2147483647
      ∧ (∃ N : Nat, ∀ n : Nat, N ≤ n →
          groundPressureAfter powfSeries (calibratedAt 100000) n
              = 8 * (calibratedAt 100000).baroPressure
            ∧ Int.tdiv (groundPressureAfter powfSeries (calibratedAt 100000) n) 8
              = (calibratedAt 100000).baroPressure) :=
  ⟨rfl, by decide, by decide,
    (accumulator_converges_exactly powfSeries (calibratedAt 100000) rfl (by decide)
      (by decide)).2.2.2.1⟩

/-- C20: after any sequence of calls of `applyBarometerMedianFilter` from the initial
state (hence before and after each call) the write cursor `currentFilterSampleIndex`
is 0, 1 or 2 and lies inside the three-element sample buffer, and after `n` pushes it
equals `n mod 3`. -/
theorem cursor_in_bounds (qmf : List Int → Int) (xs : List Int) :
    0 ≤ (pushSamples qmf medianFilterInit xs).1.currentFilterSampleIndex
      ∧ (pushSamples qmf medianFilterInit xs).1.currentFilterSampleIndex
          < PRESSURE_SAMPLES_MEDIAN
      ∧ (pushSamples qmf medianFilterInit xs).1.barometerFilterSamples.length = 3
      ∧ (pushSamples qmf medianFilterInit xs).1.currentFilterSampleIndex.toNat
          < (pushSamples qmf medianFilterInit xs).1.barometerFilterSamples.length
      ∧ (pushSamples qmf medianFilterInit xs).1.currentFilterSampleIndex
          = (xs.length : Int) % 3 := by
  obtain ⟨hl, hi⟩ := filterWf_pushSamples qmf xs medianFilterInit filterWf_init
  have hc := cursor_after_pushes qmf xs medianFilterInit filterWf_init
  have h0 : medianFilterInit.currentFilterSampleIndex = 0 := rfl
  rw [h0, zero_add] at hc
  refine ⟨by omega, by unfold PRESSURE_SAMPLES_MEDIAN; omega, hl, by omega, hc⟩

end Barometer
